import Mathlib

/-!
# bmtrace.c : session controller, channel mask, status lanes, format reload

A shallow embedding of `main`, `ctf_error_notify` and `bmp_callback` of
`src/source/bmtrace.c`.  Local variables of `main` and the two file-level
statics become fields of `State`; calls into collaborators that are not part of
the file (probe driver, transport, schema engine, trace buffer) are appended to
`State.log` in program order, and the values they return are supplied by an
environment record.

Conventions of the embedding:

* integers follow the LP64 data model of the `__linux__` branch of the file:
  `int` has 32 bits, `long` and `unsigned long` have 64 bits; `(1 << 31)` on an
  `int` is taken to wrap to `INT_MIN`, as compilers for two's complement
  targets produce it;
* `assert` is compiled out (`NDEBUG`);
* a pointer argument is an `Option`, `none` being the null pointer; where the
  file hands a null pointer to `strlcat` the function has no result
  (`ctf_error_notify` returns an `Option`);
* the probe driver reports through `bmp_callback` during `bmp_connect` and
  `bmp_attach`, and the schema engine reports through `ctf_error_notify`
  during `ctf_parse_init` and `ctf_parse_run`; the messages they post are part
  of the environment, other collaborator calls are taken not to call back;
* widget calls that only draw are left out; the values the widgets return are
  the operator's input of the frame.
-/

namespace BMTrace

/-- A zero-terminated C string, without its terminator. -/
abbrev CStr := List Char

/-! ## C integers (LP64: `int` is 32 bits, `long` and `unsigned long` are 64 bits) -/

/-- Conversion of a mathematical integer to `unsigned long`. -/
def toULong (x : Int) : Nat := (x % 18446744073709551616).toNat

/-- Reduction of a mathematical integer to a two's complement `int`. -/
def toInt (x : Int) : Int := (x + 2147483648) % 4294967296 - 2147483648

/-- The expression `(1 << chan)`, evaluated in type `int`. -/
def shl1 (chan : Nat) : Int := toInt (2 ^ chan)

/-- The expression `~x` on an `int`. -/
def bitnot (x : Int) : Int := -x - 1

def LONG_MAX : Int := 9223372036854775807

def LONG_MIN : Int := -9223372036854775808

/-- The C library `isspace` in the "C" locale. -/
def isspace (c : Char) : Bool :=
  c.toNat = 32 || (9 ≤ c.toNat && c.toNat ≤ 13)

/-- Value of a run of decimal digits, most significant first. -/
def digitsValue (ds : List Char) : Nat :=
  ds.foldl (fun acc c => 10 * acc + (c.toNat - 48)) 0

/-- The text after the leading white space that `strtol` and `strtoul` skip. -/
def skip_space (s : CStr) : CStr := s.dropWhile isspace

/-- The text after the optional sign. -/
def skip_sign (s : CStr) : CStr :=
  if (skip_space s).head? = some '-' ∨ (skip_space s).head? = some '+' then (skip_space s).tail
  else skip_space s

/-- The run of decimal digits that `strtol` and `strtoul` convert; it is empty
when the text cannot be parsed as a number. -/
def leading_digits (s : CStr) : List Char := (skip_sign s).takeWhile Char.isDigit

/-- The C library `strtol(s, NULL, 10)`: leading white space, an optional sign,
then the longest run of decimal digits; 0 when there is no digit, and the
result saturates at the bounds of `long`. -/
def strtol (s : CStr) : Int :=
  let neg := (skip_space s).head? = some '-'
  let v : Int := (digitsValue (leading_digits s) : Nat)
  let r : Int := if neg then -v else v
  if r < LONG_MIN then LONG_MIN else if LONG_MAX < r then LONG_MAX else r

/-- The C library `strtoul(s, NULL, 10)`: as `strtol`, with the value of the
digits saturating at `ULONG_MAX` and a minus sign negating it in `unsigned
long`. -/
def strtoul (s : CStr) : Nat :=
  let neg := (skip_space s).head? = some '-'
  let v : Nat := digitsValue (leading_digits s)
  if 18446744073709551615 < v then 18446744073709551615
  else if neg then toULong (-(v : Int)) else v

/-! ## Constants of headers that are not part of the file -/

/-- Modelled from the spec: `NUM_CHANNELS` of `swotrace.h` is missing; the spec
fixes the channel range to [0, N) with N = 32. -/
def NUM_CHANNELS : Nat := 32

/-- Modelled from the spec: `CTFERR_NONE` of the schema engine's header is
missing; it is the sentinel "none" code of a reset event. -/
def CTFERR_NONE : Int := 0

/-- Modelled from the spec: `BMPSTAT_SUCCESS` of `bmp-support.h` is missing;
status codes are negative for errors and non-negative otherwise, and the
source comments on this code that it is non-zero. -/
def BMPSTAT_SUCCESS : Int := 1

/-- Modelled from the spec: `BMPERR_GENERAL` of `bmp-support.h` is missing;
error codes are negative. -/
def BMPERR_GENERAL : Int := -1

/-- The enumeration of `opt_mode`. -/
inductive Mode
  | MODE_PASSIVE
  | MODE_MANCHESTER
  | MODE_ASYNC
  deriving DecidableEq, Repr

/-- Ordinal of an enumerator of `Mode`. -/
def Mode.ord : Mode → Nat
  | .MODE_PASSIVE => 0
  | .MODE_MANCHESTER => 1
  | .MODE_ASYNC => 2

/-- Modelled from the spec: the `TRACESTAT_*` results of `trace_init`
(`swotrace.h` is missing), by the names the `switch` in `main` uses; `OTHER` is
any value that matches no `case`. -/
inductive TraceStat
  | TRACESTAT_OK
  | TRACESTAT_INIT_FAILED
  | TRACESTAT_NO_INTERFACE
  | TRACESTAT_NO_DEVPATH
  | TRACESTAT_NO_PIPE
  | TRACESTAT_NO_ACCESS
  | TRACESTAT_NO_THREAD
  | OTHER
  deriving DecidableEq, Repr

/-- The two status lanes of `tracelog_statusmsg`. -/
inductive Lane
  | TRACESTATMSG_BMP
  | TRACESTATMSG_CTF
  deriving DecidableEq, Repr

/-! ## Channel registry -/

structure Color where
  r : Nat
  g : Nat
  b : Nat
  deriving DecidableEq, Repr

/-- The expression `nk_rgb(r, g, b)` of the widget library: each component is
clamped to 0 .. 255. -/
def nk_rgb (r g b : Nat) : Color := ⟨min r 255, min g 255, min b 255⟩

structure Channel where
  enabled : Bool
  color : Color
  name : Option CStr
  deriving DecidableEq, Repr

/-- Modelled from the spec: the channel table of `swotrace.c` is missing; it is
a fixed table of channels indexed by an id in [0, N). -/
abbrev Registry := Nat → Channel

/-- Modelled from the spec: `channel_set` of `swotrace.c` is missing; it writes
all attributes of one channel of the fixed range and no other channel. -/
def channel_set (reg : Registry) (index : Nat) (enabled : Bool) (name : Option CStr)
    (color : Color) : Registry :=
  fun i => if i = index ∧ index < NUM_CHANNELS then ⟨enabled, color, name⟩ else reg i

/-- Modelled from the spec: `channel_getenabled` of `swotrace.c` is missing. -/
def channel_getenabled (reg : Registry) (index : Nat) : Bool := (reg index).enabled

/-- Modelled from the spec: `channel_setenabled` of `swotrace.c` is missing
(`setEnabled(id, bool)`); it changes the flag of one channel of the range. -/
def channel_setenabled (reg : Registry) (index : Nat) (enabled : Bool) : Registry :=
  fun i => if i = index ∧ index < NUM_CHANNELS then { reg i with enabled := enabled } else reg i

/-- Modelled from the spec: `channel_getcolor` of `swotrace.c` is missing. -/
def channel_getcolor (reg : Registry) (index : Nat) : Color := (reg index).color

/-- Modelled from the spec: `channel_setcolor` of `swotrace.c` is missing
(`setColor(id, RGB)`). -/
def channel_setcolor (reg : Registry) (index : Nat) (color : Color) : Registry :=
  fun i => if i = index ∧ index < NUM_CHANNELS then { reg i with color := color } else reg i

/-- Modelled from the spec: `channel_getname` of `swotrace.c` is missing; an
absent name reads as the empty text. -/
def channel_getname (reg : Registry) (index : Nat) : CStr := ((reg index).name).getD []

/-- Modelled from the spec: `channel_setname` of `swotrace.c` is missing; the
text is written to `Channel.name`, a null pointer makes the name absent. -/
def channel_setname (reg : Registry) (index : Nat) (name : Option CStr) : Registry :=
  fun i => if i = index ∧ index < NUM_CHANNELS then { reg i with name := name } else reg i

/-! ## Trace of calls -/

/-- Calls that leave the file, in the order in which they are made, together
with two kinds of marker: the call of `ctf_error_notify` and the store to
`cur_match_line` made by the format reload. -/
inductive Call
  | bmp_break
  | gdbrsp_packetsize (size : Nat)
  | bmp_detach (powerdown : Nat)
  | rs232_dtr (v : Nat)
  | rs232_rts (v : Nat)
  | rs232_close
  | bmp_connect
  | bmp_attach (tpwr : Nat)
  | bmp_enabletrace (bitrate : Nat)
  | bmp_runscript (name : String) (driver : CStr) (params : List Nat)
  | bmp_restart
  | tracestring_clear
  | tracelog_statusmsg (lane : Lane) (msg : Option CStr) (code : Int)
  | ctf_parse_cleanup
  | ctf_decode_cleanup
  | trace_enablectf (enable : Nat)
  | ctf_parse_init (path : CStr)
  | ctf_parse_run
  | ctf_error_notify (code : Int) (linenr : Int)
  | store_cur_match_line (v : Int)
  | trace_init
  | trace_save (path : CStr)
  | tracestring_process (running : Bool)
  deriving DecidableEq, Repr

/-! ## Program state -/

/-- The variables of `main`, the statics `recent_statuscode` and
`ctf_statusset`, the trace of calls, and a count of reconfiguration passes
(`passes` is not a variable of the program; it records how often the branch
`reinitialize == 1` was taken). -/
structure State where
  channels : Registry
  channelmask : Nat
  opt_mode : Mode
  opt_format : Int
  cpuclock_str : CStr
  bitrate_str : CStr
  cpuclock : Nat
  bitrate : Nat
  txtTSDLfile : CStr
  mcu_driver : CStr
  valstr : CStr
  findtext : CStr
  cur_chan_edit : Int
  trace_status : TraceStat
  trace_running : Bool
  reinitialize : Int
  reload_format : Bool
  cur_match_line : Int
  find_popup : Int
  recent_statuscode : Int
  ctf_statusset : Bool
  log : List Call
  passes : Nat

/-- Record one call in the trace. -/
def emit (c : Call) (s : State) : State := { s with log := s.log ++ [c] }

/-! ## Status notifier -/

/-- The text `ctf_error_notify` builds in `msg[200]` from a message that is
not a null pointer: the `sprintf` or `strcpy` of the lead, then
`strlcat(msg, message, sizearray(msg))`. -/
def ctf_message (linenr : Int) (message : CStr) : CStr :=
  let msg : CStr :=
    if linenr > 0 then
      "TSDL file error, line ".toList ++ Nat.toDigits 10 linenr.toNat ++ ": ".toList
    else
      "TSDL file error: ".toList
  (msg ++ message).take 199

/-- The function `ctf_error_notify`: the state in which it returns and the
value it returns.  `message` is a pointer, `none` being the null pointer; the
function hands it to `strlcat` unchecked when it displays a message, so with a
null pointer that branch has no defined result, which is `none` here. -/
def ctf_error_notify (code : Int) (linenr : Int) (message : Option CStr) (s : State) :
    Option (State × Int) :=
  let s := emit (.ctf_error_notify code linenr) s
  if code = CTFERR_NONE then
    some ({ s with ctf_statusset := false }, 0)
  else if !s.ctf_statusset then
    let s := { s with ctf_statusset := true }
    match message with
    | some text =>
        some (emit (.tracelog_statusmsg .TRACESTATMSG_CTF (some (ctf_message linenr text)) 0) s, 0)
    | none => none
  else
    some (s, 0)

/-- The state after a call of `ctf_error_notify` made in state `s`, given the
result `r` of the call.  The calls made by `main` (with `CTFERR_NONE`) and by
the schema engine (with a message text) always return, so the second case is
never taken by them. -/
def after_notify (r : Option (State × Int)) (s : State) : State :=
  match r with
  | some p => p.1
  | none => s

/-- The function `bmp_callback`. -/
def bmp_callback (code : Int) (message : Option CStr) (s : State) : State × Bool :=
  let s := { s with recent_statuscode := code }
  let s := emit (.tracelog_statusmsg .TRACESTATMSG_BMP message code) s
  (s, decide (code ≥ 0))

/-! ## Start-up -/

/-- One `chan<N>` value of the configuration file for which `sscanf` converted
at least two fields; `name` is present when it converted three. -/
structure IniChan where
  enabled : Int
  clr : Nat
  name : Option CStr

/-- The values the configuration file holds; `none` is a missing key, for which
`main` supplies its default. -/
structure Ini where
  chan : Nat → Option IniChan
  mode : Option Mode
  format : Option Int
  tsdl : Option CStr
  mcu_freq : Option CStr
  bitrate : Option CStr
  size : Option CStr

/-- The loop "read channel configuration" of `main`, for one channel. -/
def startup_channel (ini : Ini) (reg : Registry) (chan : Nat) : Registry :=
  let reg := channel_set reg chan (chan = 0) none (nk_rgb 190 190 190)
  match ini.chan chan with
  | some c =>
      channel_set reg chan (c.enabled ≠ 0) c.name
        (nk_rgb (c.clr / 65536) (c.clr / 256 % 256) (c.clr % 256))
  | none => reg

/-- The state of `main` on entry of the `for ( ;; )` loop.  `reg0` is the
channel table before `main` runs, `trace_init` the result of `trace_init()` and
`mcu_driver` the content of the uninitialised local buffer. -/
def startup (ini : Ini) (reg0 : Registry) (trace_init : TraceStat) (mcu_driver : CStr) :
    State :=
  { channels := (List.range NUM_CHANNELS).foldl (startup_channel ini) reg0
    channelmask := 0
    opt_mode := ini.mode.getD .MODE_MANCHESTER
    opt_format := ini.format.getD 0
    cpuclock_str := (ini.mcu_freq.getD "48000000".toList).take 14
    bitrate_str := (ini.bitrate.getD "100000".toList).take 14
    cpuclock := 0
    bitrate := 0
    txtTSDLfile := (ini.tsdl.getD []).take 255
    mcu_driver := mcu_driver
    valstr := (ini.size.getD []).take 127
    findtext := []
    cur_chan_edit := -1
    trace_status := trace_init
    trace_running := decide (trace_init = .TRACESTAT_OK)
    reinitialize := 2
    reload_format := true
    cur_match_line := -1
    find_popup := 0
    recent_statuscode := BMPSTAT_SUCCESS
    ctf_statusset := false
    log := [.trace_init,
            .tracelog_statusmsg .TRACESTATMSG_BMP (some "Initializing...".toList) BMPSTAT_SUCCESS]
    passes := 0 }

/-! ## Reconfiguration sequence -/

/-- What the probe and the transport answer during one reconfiguration pass:
whether the transport is open, the results of `bmp_connect` and `bmp_attach`,
the status messages these two post through the registered callback, and the
driver name `bmp_attach` leaves in `mcu_driver`. -/
structure ProbeEnv where
  rs232_isopen : Bool
  bmp_connect : Bool
  connect_posts : List (Int × CStr)
  bmp_attach : Bool
  attach_posts : List (Int × CStr)
  attach_driver : CStr

/-- The probe driver posting a list of messages through `bmp_callback`. -/
def run_posts (ps : List (Int × CStr)) (s : State) : State :=
  ps.foldl (fun st p => (bmp_callback p.1 (some p.2) st).1) s

/-- The loop `for (chan = 0; chan < NUM_CHANNELS; chan++) if (channel_getenabled(chan))
channelmask |= (1 << chan);` started from `channelmask = 0`. -/
def channelmask_loop (reg : Registry) : Nat :=
  (List.range NUM_CHANNELS).foldl
    (fun mask chan => if channel_getenabled reg chan then mask ||| toULong (shl1 chan) else mask) 0

/-- The statements `if ((cpuclock = strtol(cpuclock_str, NULL, 10)) == 0)
cpuclock = 48000000; if ((bitrate = strtol(bitrate_str, NULL, 10)) == 0)
bitrate = 100000;`. -/
def parse_rates (s : State) : State :=
  let s := { s with cpuclock := toULong (strtol s.cpuclock_str) }
  let s := if s.cpuclock = 0 then { s with cpuclock := 48000000 } else s
  let s := { s with bitrate := toULong (strtol s.bitrate_str) }
  if s.bitrate = 0 then { s with bitrate := 100000 } else s

/-- The body of `if (result)` in the reconfiguration sequence: trace
enablement, the three scripts and the restart. -/
def connected_setup (s : State) : State :=
  let s := emit (.bmp_enabletrace (if s.opt_mode = .MODE_ASYNC then s.bitrate else 0)) s
  let s := emit (.bmp_runscript "swo-device" s.mcu_driver []) s
  let s := parse_rates s
  let params0 : Nat := s.opt_mode.ord
  let params1 : Nat := toULong (((s.cpuclock / s.bitrate : Nat) : Int) - 1)
  let s := emit (.bmp_runscript "swo-generic" s.mcu_driver [params0, params1]) s
  let s := { s with channelmask := channelmask_loop s.channels }
  let params0 : Nat := s.channelmask
  let s := emit (.bmp_runscript "swo-channels" s.mcu_driver [params0, params1]) s
  emit .bmp_restart s

/-- The `switch (trace_status)` that ends the reconfiguration sequence. -/
def status_switch (s : State) : State :=
  match s.trace_status with
  | .TRACESTAT_OK =>
      let s := { s with recent_statuscode := BMPSTAT_SUCCESS }
      if s.opt_mode = .MODE_PASSIVE then
        emit (.tracelog_statusmsg .TRACESTATMSG_BMP (some "Listening...".toList)
          s.recent_statuscode) s
      else if s.recent_statuscode ≥ 0 then
        let msg : CStr := "Connected [".toList ++ s.mcu_driver ++ "]".toList
        emit (.tracelog_statusmsg .TRACESTATMSG_BMP (some msg) s.recent_statuscode) s
      else s
  | .TRACESTAT_INIT_FAILED | .TRACESTAT_NO_INTERFACE | .TRACESTAT_NO_DEVPATH
  | .TRACESTAT_NO_PIPE =>
      let s := { s with recent_statuscode := BMPERR_GENERAL }
      emit (.tracelog_statusmsg .TRACESTATMSG_BMP (some "Trace interface not available".toList)
        s.recent_statuscode) s
  | .TRACESTAT_NO_ACCESS =>
      let s := { s with recent_statuscode := BMPERR_GENERAL }
      emit (.tracelog_statusmsg .TRACESTATMSG_BMP (some "Trace access denied".toList)
        s.recent_statuscode) s
  | .TRACESTAT_NO_THREAD =>
      let s := { s with recent_statuscode := BMPERR_GENERAL }
      emit (.tracelog_statusmsg .TRACESTATMSG_BMP (some "Multithreading failed".toList)
        s.recent_statuscode) s
  | .OTHER => s

/-- The statement `if (rs232_isopen()) bmp_break();`. -/
def halt_target (e : ProbeEnv) (s : State) : State :=
  if e.rs232_isopen then emit .bmp_break s else s

/-- The body of `if (opt_mode == MODE_PASSIVE)`. -/
def passive_teardown (e : ProbeEnv) (s : State) : State :=
  let s := emit (.gdbrsp_packetsize 0) s
  if e.rs232_isopen then
    let s := emit (.bmp_detach 1) s
    let s := emit (.rs232_dtr 0) s
    let s := emit (.rs232_rts 0) s
    emit .rs232_close s
  else s

/-- The statements `int result = bmp_connect(); if (result) result =
bmp_attach(2, mcu_driver, ...);`: the state after them and the value of
`result`. -/
def connect_attach (e : ProbeEnv) (s : State) : State × Bool :=
  let s := run_posts e.connect_posts (emit .bmp_connect s)
  if e.bmp_connect then
    ({ run_posts e.attach_posts (emit (.bmp_attach 2) s) with mcu_driver := e.attach_driver },
      e.bmp_attach)
  else (s, false)

/-- The probe and transport part of the reconfiguration sequence (the
statements before `tracestring_clear()`). -/
def probe_sequence (e : ProbeEnv) (s : State) : State :=
  let s := halt_target e s
  if s.opt_mode = .MODE_PASSIVE then passive_teardown e s
  else
    let r := connect_attach e s
    if r.2 then connected_setup r.1 else r.1

/-- The body of `if (reinitialize == 1)`: one reconfiguration pass. -/
def reconfigure (e : ProbeEnv) (s : State) : State :=
  let s := { s with passes := s.passes + 1 }
  let s := probe_sequence e s
  let s := emit .tracestring_clear s
  let s := status_switch s
  { s with reinitialize := 0 }

/-- The statement `if (reinitialize == 1) ... else if (reinitialize > 0)
reinitialize -= 1;` that opens every iteration. -/
def reinit_block (e : ProbeEnv) (s : State) : State :=
  if s.reinitialize = 1 then reconfigure e s
  else if s.reinitialize > 0 then { s with reinitialize := s.reinitialize - 1 }
  else s

/-! ## Format reload -/

/-- One error report of the schema engine: the arguments with which it calls
`ctf_error_notify`. -/
structure CtfNote where
  code : Int
  linenr : Int
  message : CStr

/-- A stream of the parsed schema, as far as `main` reads it. -/
structure CTF_STREAM where
  name : Option CStr
  deriving DecidableEq, Repr

/-- What the file system and the schema engine answer during one format
reload: the result of `access`, the results of `ctf_parse_init` and
`ctf_parse_run` with the errors each reports through `ctf_error_notify`, and
the streams of the parsed schema, listed by sequence number (`none` is a
sequence number without a stream). -/
structure SchemaEnv where
  access : Bool
  ctf_parse_init : Bool
  init_notes : List CtfNote
  ctf_parse_run : Bool
  run_notes : List CtfNote
  streams : List (Option CTF_STREAM)

/-- Modelled from the spec: `stream_by_seqnr` of the schema engine is missing
(`streamBySequence(n) -> optional`). -/
def stream_by_seqnr (streams : List (Option CTF_STREAM)) (seqnr : Nat) : Option CTF_STREAM :=
  (streams.get? seqnr).join

/-- The schema engine reporting a list of errors through `ctf_error_notify`. -/
def run_notes (ns : List CtfNote) (s : State) : State :=
  ns.foldl
    (fun st n => after_notify (ctf_error_notify n.code n.linenr (some n.message) st) st) s

/-- The loop `for (seqnr = 0; (stream = stream_by_seqnr(seqnr)) != NULL; seqnr++)`
with its body, from sequence number `seqnr` on; `fuel` bounds the number of
iterations. -/
def stream_names (streams : List (Option CTF_STREAM)) : Nat → Nat → Registry → Registry
  | 0, _, reg => reg
  | fuel + 1, seqnr, reg =>
      match stream_by_seqnr streams seqnr with
      | none => reg
      | some stream =>
          let reg :=
            if stream.name ≠ none ∧ (stream.name.getD []).length > 0 then
              channel_setname reg seqnr stream.name
            else reg
          stream_names streams fuel (seqnr + 1) reg

/-- The teardown that opens the body of `if (reload_format)`: the statements
from `ctf_parse_cleanup()` to `ctf_error_notify(CTFERR_NONE, 0, NULL)`. -/
def reload_teardown (s : State) : State :=
  let s := emit .ctf_parse_cleanup s
  let s := emit .ctf_decode_cleanup s
  let s := emit .tracestring_clear s
  let s := emit (.store_cur_match_line (-1)) { s with cur_match_line := -1 }
  let s := emit (.trace_enablectf 0) s
  let s := emit (.tracelog_statusmsg .TRACESTATMSG_CTF none 0) s
  after_notify (ctf_error_notify CTFERR_NONE 0 none s) s

/-- The condition `ctf_parse_init(txtTSDLfile) && ctf_parse_run()`: the state
after its evaluation and its value. -/
def parse_schema (e : SchemaEnv) (s : State) : State × Bool :=
  let s := run_notes e.init_notes (emit (.ctf_parse_init s.txtTSDLfile) s)
  if e.ctf_parse_init then
    (run_notes e.run_notes (emit .ctf_parse_run s), e.ctf_parse_run)
  else (s, false)

/-- The statement `if (opt_format == 1 && strlen(txtTSDLfile) > 0 &&
access(txtTSDLfile, 0) == 0) ...` of the format reload. -/
def reload_build (e : SchemaEnv) (s : State) : State :=
  if s.opt_format = 1 ∧ s.txtTSDLfile.length > 0 ∧ e.access = true then
    let r := parse_schema e s
    if r.2 then
      let s := emit (.trace_enablectf 1) r.1
      { s with channels := stream_names e.streams (e.streams.length + 1) 0 s.channels }
    else emit .ctf_parse_cleanup r.1
  else s

/-- The body of `if (reload_format)`. -/
def reload_body (e : SchemaEnv) (s : State) : State :=
  { reload_build e (reload_teardown s) with reload_format := false }

/-- The statement `if (reload_format) ...` of every iteration. -/
def reload_block (e : SchemaEnv) (s : State) : State :=
  if s.reload_format then reload_body e s else s

/-! ## User interface pass -/

/-- The content of an edit buffer of `cap + 1` bytes after
`nk_edit_string_zero_terminated`: the text the operator has typed, cut to the
capacity of the buffer, or the old content when nothing was typed. -/
def edit_buffer (cap : Nat) (text : Option CStr) (old : CStr) : CStr :=
  match text with
  | some t => t.take cap
  | none => old

/-- What `nk_edit_string_zero_terminated` does in one frame: the text it leaves
in the buffer (`none`: no change) and the two flags of its result that `main`
tests. -/
structure EditResult where
  text : Option CStr
  commited : Bool
  deactivated : Bool

/-- The operator's input on the cell of one channel in one frame: whether
`nk_checkbox_label` reports a click, whether the contextual popup is open, and
the values its property widgets and its name field return. -/
structure ChanInput where
  checkbox : Bool
  popup : Bool
  r : Option Nat
  g : Option Nat
  b : Option Nat
  name : Option CStr

/-- The operator's input and the answers of the collaborators the widgets
consult, for one frame. -/
structure GuiInput where
  nk_begin : Bool
  mode_combo : Option Mode
  cpuclock_edit : EditResult
  bitrate_edit : EditResult
  format_combo : Option Int
  tsdl_edit : EditResult
  folder_button : Bool
  open_dialog : Option CStr
  chan : Nat → ChanInput
  run_button : Bool
  trace_init : TraceStat
  clear_button : Bool
  search_button : Bool
  save_button : Bool
  save_dialog : Option CStr
  popup_begin : Bool
  findtext_edit : Option CStr
  find_button : Bool
  tracestring_find : Int
  cancel_button : Bool

/-- The mode combo box: `result = opt_mode; opt_mode = nk_combo(...);
if (opt_mode != result) reinitialize = 1;`. -/
def mode_row (g : GuiInput) (s : State) : State :=
  let result := s.opt_mode
  let s := { s with opt_mode := g.mode_combo.getD s.opt_mode }
  if s.opt_mode ≠ result then { s with reinitialize := 1 } else s

/-- The CPU clock and bit rate fields, shown when `opt_mode > MODE_PASSIVE`. -/
def clock_row (g : GuiInput) (s : State) : State :=
  if s.opt_mode.ord > Mode.MODE_PASSIVE.ord then
    let s := { s with cpuclock_str := edit_buffer 14 g.cpuclock_edit.text s.cpuclock_str }
    let s :=
      if g.cpuclock_edit.commited ∨
          (g.cpuclock_edit.deactivated ∧ strtoul s.cpuclock_str ≠ s.cpuclock) then
        { s with reinitialize := 1 }
      else s
    let s := { s with bitrate_str := edit_buffer 14 g.bitrate_edit.text s.bitrate_str }
    if g.bitrate_edit.commited ∨
        (g.bitrate_edit.deactivated ∧ strtoul s.bitrate_str ≠ s.bitrate) then
      { s with reinitialize := 1 }
    else s
  else s

/-- The format combo box, the schema path field and the folder button. -/
def format_row (g : GuiInput) (s : State) : State :=
  let result := s.opt_format
  let s : State := { s with opt_format := g.format_combo.getD s.opt_format }
  let s : State := if s.opt_format ≠ result then { s with reload_format := true } else s
  if 0 < s.opt_format then
    let s := { s with txtTSDLfile := edit_buffer 255 g.tsdl_edit.text s.txtTSDLfile }
    let s :=
      if g.tsdl_edit.commited ∨ g.tsdl_edit.deactivated then { s with reload_format := true }
      else s
    if g.folder_button then
      match g.open_dialog with
      | some path =>
          if path.length < 256 then { s with txtTSDLfile := path, reload_format := true } else s
      | none => s
    else s
  else s

/-- The body of `if (nk_checkbox_label(...) && opt_mode > MODE_PASSIVE)`: the
channel toggle, with `enabled` the new value of the check box. -/
def channel_toggle (chan : Nat) (enabled : Bool) (s : State) : State :=
  let s := { s with channels := channel_setenabled s.channels chan enabled }
  let s :=
    if enabled then { s with channelmask := s.channelmask ||| toULong (shl1 chan) }
    else { s with channelmask := s.channelmask &&& toULong (bitnot (shl1 chan)) }
  emit (.bmp_runscript "swo-channels" s.mcu_driver [s.channelmask]) s

/-- One step of `while ((pspace = strchr(valstr, ' ')) != NULL) *pspace = '-';`
repeated at most `fuel` times; `none` when the loop has not ended by then.
`List.indexOf` yields the length of the text when there is no space, which is
`strchr` returning `NULL`. -/
def space_loop : Nat → CStr → Option CStr
  | 0, _ => none
  | fuel + 1, valstr =>
      let pspace := valstr.indexOf ' '
      if pspace < valstr.length then space_loop fuel (valstr.set pspace '-')
      else some valstr

/-- The branch "contextual popup is closed, copy the name back": the name that
is passed to `channel_setname`, `none` being the null pointer.  The loop is
given one more step than the text has characters. -/
def commit_name (valstr : CStr) : Option CStr :=
  if valstr.length = 0 then none
  else (space_loop (valstr.length + 1) valstr).getD valstr

/-- The check box of channel `chan`: `nk_checkbox_label` inverts `enabled` when
it reports a click, and the toggle is carried out when `opt_mode >
MODE_PASSIVE`. -/
def channel_checkbox (g : GuiInput) (s : State) (chan : Nat) : State :=
  let enabled := channel_getenabled s.channels chan
  let enabled := if (g.chan chan).checkbox then !enabled else enabled
  if (g.chan chan).checkbox = true ∧ s.opt_mode.ord > Mode.MODE_PASSIVE.ord then
    channel_toggle chan enabled s
  else s

/-- The contextual popup of channel `chan`: colour and name editing while it is
open, the commit of the name when it has closed. -/
def channel_popup (g : GuiInput) (s : State) (chan : Nat) : State :=
  if (g.chan chan).popup then
    let color := channel_getcolor s.channels chan
    let color : Color :=
      ⟨((g.chan chan).r.getD color.r) % 256, ((g.chan chan).g.getD color.g) % 256,
        ((g.chan chan).b.getD color.b) % 256⟩
    let s := { s with channels := channel_setcolor s.channels chan color }
    let s :=
      if s.cur_chan_edit = -1 then
        { s with cur_chan_edit := chan, valstr := (channel_getname s.channels chan).take 127 }
      else s
    { s with valstr := edit_buffer 127 (g.chan chan).name s.valstr }
  else if s.cur_chan_edit = chan then
    let s := { s with channels := channel_setname s.channels chan (commit_name s.valstr) }
    { s with cur_chan_edit := -1 }
  else s

/-- The cell of channel `chan` in the channel grid. -/
def channel_cell (g : GuiInput) (s : State) (chan : Nat) : State :=
  channel_popup g (channel_checkbox g s chan) chan

/-- The channel grid: `numrows` rows of `32 / numrows` cells with `numrows`
one of 1, 2 and 4, so that `chan` runs over 0 .. 31 whatever the window
width. -/
def channel_grid (g : GuiInput) (s : State) : State :=
  (List.range 32).foldl (channel_cell g) s

/-- The Start/Stop/Resume button. -/
def run_button (g : GuiInput) (s : State) : State :=
  if g.run_button then
    let s := { s with trace_running := !s.trace_running }
    if s.trace_running ∧ s.trace_status ≠ .TRACESTAT_OK then
      let s := emit .trace_init { s with trace_status := g.trace_init }
      if s.trace_status ≠ .TRACESTAT_OK then { s with trace_running := false } else s
    else s
  else s

/-- The Clear, Search and Save buttons. -/
def button_row (g : GuiInput) (s : State) : State :=
  let s :=
    if g.clear_button then { emit .tracestring_clear s with cur_match_line := -1 } else s
  let s := if g.search_button then { s with find_popup := 1 } else s
  if g.save_button then
    match g.save_dialog with
    | some path => emit (.trace_save path) s
    | none => s
  else s

/-- The body of the Find button handler: `line` is the result of
`tracestring_find(findtext, cur_match_line)`. -/
def find_action (line : Int) (s : State) : State :=
  if s.findtext.length > 0 then
    if line ≠ s.cur_match_line then
      { s with cur_match_line := line, find_popup := 0, trace_running := false }
    else
      { s with cur_match_line := -1, find_popup := 2 }
  else s

/-- The search popup, shown while `find_popup > 0`. -/
def search_popup (g : GuiInput) (s : State) : State :=
  if s.find_popup > 0 then
    if g.popup_begin then
      let s := { s with findtext := edit_buffer 127 g.findtext_edit s.findtext }
      let s := if g.find_button then find_action g.tracestring_find s else s
      if g.cancel_button then { s with find_popup := 0 } else s
    else { s with find_popup := 0 }
  else s

/-- The part of an iteration between `nk_begin` and `nk_end`. -/
def gui (g : GuiInput) (s : State) : State :=
  if g.nk_begin then
    let s := mode_row g s
    let s := clock_row g s
    let s := format_row g s
    let s := channel_grid g s
    let s := emit (.tracestring_process s.trace_running) s
    let s := run_button g s
    let s := button_row g s
    search_popup g s
  else s

/-- One iteration of `for ( ;; )` in which `guidriver_poll` does not end the
loop. -/
def iteration (pe : ProbeEnv) (se : SchemaEnv) (g : GuiInput) (s : State) : State :=
  gui g (reload_block se (reinit_block pe s))

/-- The state after the iterations listed, first to last. -/
def run (s : State) : List (ProbeEnv × SchemaEnv × GuiInput) → State
  | [] => s
  | (pe, se, g) :: rest => run (iteration pe se g s) rest

/-! ## Predicates and closed forms used in the statements -/

/-- Bit `i` of `channelmask` is set exactly when channel `i` is enabled, for
every channel of the range. -/
def mask_agrees (s : State) : Prop :=
  ∀ i, i < NUM_CHANNELS → (s.channelmask.testBit i = true ↔ channel_getenabled s.channels i = true)

instance (s : State) : Decidable (mask_agrees s) := by
  unfold mask_agrees; infer_instance

/-- The mask and the enabled flags of `s2` are those of `s1`. -/
def same_mask_view (s1 s2 : State) : Prop :=
  s2.channelmask = s1.channelmask ∧
    ∀ i, channel_getenabled s2.channels i = channel_getenabled s1.channels i

/-- Trace of `bmp_connect` and, when it is reached, `bmp_attach`, with the
messages the two post. -/
def connect_attach_log (e : ProbeEnv) : List Call :=
  Call.bmp_connect ::
    e.connect_posts.map (fun p => Call.tracelog_statusmsg .TRACESTATMSG_BMP (some p.2) p.1) ++
    (if e.bmp_connect then
      Call.bmp_attach 2 ::
        e.attach_posts.map (fun p => Call.tracelog_statusmsg .TRACESTATMSG_BMP (some p.2) p.1)
    else [])

/-- Trace of one call of `ctf_error_notify` made while the sticky flag is `set`. -/
def notify_log (code linenr : Int) (message : CStr) (set : Bool) : List Call :=
  Call.ctf_error_notify code linenr ::
    (if code ≠ CTFERR_NONE ∧ set = false then
      [Call.tracelog_statusmsg .TRACESTATMSG_CTF (some (ctf_message linenr message)) 0]
    else [])

/-- Trace of the schema engine reporting the errors `ns`, the sticky flag
being `set` before the first. -/
def notes_log : List CtfNote → Bool → List Call
  | [], _ => []
  | n :: ns, set =>
      notify_log n.code n.linenr n.message set ++
        notes_log ns (decide (n.code ≠ CTFERR_NONE))

/-- The sticky flag after the schema engine reported the errors `ns`. -/
def notes_set : List CtfNote → Bool → Bool
  | [], set => set
  | n :: ns, _ => notes_set ns (decide (n.code ≠ CTFERR_NONE))

/-- The calls the Decode lane can add to the trace. -/
def is_decode_note : Call → Bool
  | .ctf_error_notify _ _ => true
  | .tracelog_statusmsg .TRACESTATMSG_CTF _ _ => true
  | _ => false

/-- The calls with which every format reload begins. -/
def teardown_calls : List Call :=
  [.ctf_parse_cleanup, .ctf_decode_cleanup, .tracestring_clear, .store_cur_match_line (-1),
   .trace_enablectf 0, .tracelog_statusmsg .TRACESTATMSG_CTF none 0,
   .ctf_error_notify CTFERR_NONE 0]

/-- The three conditions under which the format reload calls the schema
parser: `opt_format == 1`, a non-empty path, and `access` reporting 0. -/
def parse_attempted (e : SchemaEnv) (s : State) : Prop :=
  s.opt_format = 1 ∧ s.txtTSDLfile.length > 0 ∧ e.access = true

instance (e : SchemaEnv) (s : State) : Decidable (parse_attempted e s) := by
  unfold parse_attempted; infer_instance

/-- The calls made while `ctf_parse_init(txtTSDLfile) && ctf_parse_run()` is
evaluated, the sticky flag being `set` before. -/
def parse_log (e : SchemaEnv) (path : CStr) (set : Bool) : List Call :=
  Call.ctf_parse_init path :: notes_log e.init_notes set ++
    (if e.ctf_parse_init then
      Call.ctf_parse_run :: notes_log e.run_notes (notes_set e.init_notes set)
    else [])

/-- The operator changes the mode in the frame `g`, the mode being
`s.opt_mode` before: the panel is shown and the combo box returns another
mode. -/
def mode_changed (g : GuiInput) (s : State) : Prop :=
  g.nk_begin = true ∧ g.mode_combo.getD s.opt_mode ≠ s.opt_mode

instance (g : GuiInput) (s : State) : Decidable (mode_changed g s) := by
  unfold mode_changed; infer_instance

/-- A trigger of the reconfiguration sequence is raised in the frame `g`: the
mode is changed, or (the new mode not being Passive) the clock or the bit
rate field is committed, or is left with a text whose value differs from the
value in use. -/
def raises_trigger (g : GuiInput) (s : State) : Prop :=
  g.nk_begin = true ∧
    (g.mode_combo.getD s.opt_mode ≠ s.opt_mode ∨
      ((g.mode_combo.getD s.opt_mode).ord > Mode.MODE_PASSIVE.ord ∧
        (g.cpuclock_edit.commited = true ∨
          (g.cpuclock_edit.deactivated = true ∧
            strtoul (edit_buffer 14 g.cpuclock_edit.text s.cpuclock_str) ≠ s.cpuclock) ∨
          g.bitrate_edit.commited = true ∨
          (g.bitrate_edit.deactivated = true ∧
            strtoul (edit_buffer 14 g.bitrate_edit.text s.bitrate_str) ≠ s.bitrate))))

instance (g : GuiInput) (s : State) : Decidable (raises_trigger g s) := by
  unfold raises_trigger; infer_instance

/-- No trigger of the reconfiguration sequence is raised in any of the
iterations listed, run from the state `s`. -/
def quiet_run (s : State) : List (ProbeEnv × SchemaEnv × GuiInput) → Prop
  | [] => True
  | (pe, se, g) :: rest =>
      ¬ raises_trigger g (reload_block se (reinit_block pe s)) ∧
        quiet_run (iteration pe se g s) rest

instance quiet_run_decidable :
    (s : State) → (l : List (ProbeEnv × SchemaEnv × GuiInput)) → Decidable (quiet_run s l)
  | _, [] => isTrue trivial
  | s, (pe, se, g) :: rest =>
      @instDecidableAnd _ _ _ (quiet_run_decidable (iteration pe se g s) rest)

/-- The counters of the session controller in `s2` are those of `s1`: the
pending counter, the count of passes, the mode, and the clock and bit rate
with their texts. -/
def same_control (s1 s2 : State) : Prop :=
  State.reinitialize s2 = s1.reinitialize ∧ s2.passes = s1.passes ∧ s2.opt_mode = s1.opt_mode ∧
    s2.cpuclock = s1.cpuclock ∧ s2.bitrate = s1.bitrate ∧
    s2.cpuclock_str = s1.cpuclock_str ∧ s2.bitrate_str = s1.bitrate_str

/-- The text of the status message that announces a connection. -/
def connected_msg (driver : CStr) : CStr := "Connected [".toList ++ driver ++ "]".toList

/-- The clock in use after the statement `if ((cpuclock = strtol(cpuclock_str,
NULL, 10)) == 0) cpuclock = 48000000;`. -/
def effective_clock (cpuclock_str : CStr) : Nat :=
  if toULong (strtol cpuclock_str) = 0 then 48000000 else toULong (strtol cpuclock_str)

/-- The bit rate in use after the statement `if ((bitrate = strtol(bitrate_str,
NULL, 10)) == 0) bitrate = 100000;`. -/
def effective_bitrate (bitrate_str : CStr) : Nat :=
  if toULong (strtol bitrate_str) = 0 then 100000 else toULong (strtol bitrate_str)

/-- The expression `cpuclock / bitrate - 1` in `unsigned long`. -/
def prescaler (cpuclock bitrate : Nat) : Nat := toULong (((cpuclock / bitrate : Nat) : Int) - 1)

/-- The calls of the body of `if (result)` in a pass that starts in state `s`
and in which `bmp_attach` reported the driver `driver`. -/
def setup_calls (s : State) (driver : CStr) : List Call :=
  [.bmp_enabletrace (if s.opt_mode = .MODE_ASYNC then s.bitrate else 0),
   .bmp_runscript "swo-device" driver [],
   .bmp_runscript "swo-generic" driver
     [s.opt_mode.ord, prescaler (effective_clock s.cpuclock_str) (effective_bitrate s.bitrate_str)],
   .bmp_runscript "swo-channels" driver
     [channelmask_loop s.channels,
      prescaler (effective_clock s.cpuclock_str) (effective_bitrate s.bitrate_str)],
   .bmp_restart]

/-- The status code that `switch (trace_status)` records. -/
def status_code (ts : TraceStat) (old : Int) : Int :=
  match ts with
  | .TRACESTAT_OK => BMPSTAT_SUCCESS
  | .OTHER => old
  | _ => BMPERR_GENERAL

/-- The message that `switch (trace_status)` posts. -/
def status_calls (ts : TraceStat) (mode : Mode) (driver : CStr) : List Call :=
  match ts with
  | .TRACESTAT_OK =>
      if mode = .MODE_PASSIVE then
        [.tracelog_statusmsg .TRACESTATMSG_BMP (some "Listening...".toList) BMPSTAT_SUCCESS]
      else [.tracelog_statusmsg .TRACESTATMSG_BMP (some (connected_msg driver)) BMPSTAT_SUCCESS]
  | .TRACESTAT_NO_ACCESS =>
      [.tracelog_statusmsg .TRACESTATMSG_BMP (some "Trace access denied".toList) BMPERR_GENERAL]
  | .TRACESTAT_NO_THREAD =>
      [.tracelog_statusmsg .TRACESTATMSG_BMP (some "Multithreading failed".toList) BMPERR_GENERAL]
  | .OTHER => []
  | _ =>
      [.tracelog_statusmsg .TRACESTATMSG_BMP (some "Trace interface not available".toList)
        BMPERR_GENERAL]

/-- The replacement the commit of a name is to perform on one character: a
space becomes a hyphen. -/
def dash (c : Char) : Char := if c = ' ' then '-' else c

/-- The argument of a call of `trace_enablectf`, `none` for any other call. -/
def enablectf_arg : Call → Option Nat
  | .trace_enablectf enable => some enable
  | _ => none

/-- The call is `ctf_parse_init` or `ctf_parse_run`. -/
def is_parse_call : Call → Bool
  | .ctf_parse_init _ => true
  | .ctf_parse_run => true
  | _ => false

/-- The conditions under which the format reload ends in structured-decode
mode: the format is Structured (`opt_format == 1`), the schema path is not
empty and is accessible, and `ctf_parse_init` and `ctf_parse_run` succeed. -/
def structured_ok (e : SchemaEnv) (s : State) : Prop :=
  s.opt_format = 1 ∧ s.txtTSDLfile.length > 0 ∧ e.access = true ∧
    e.ctf_parse_init = true ∧ e.ctf_parse_run = true

instance (e : SchemaEnv) (s : State) : Decidable (structured_ok e s) := by
  unfold structured_ok; infer_instance

/-- The calls of a format reload after its teardown, for a reload that starts
in state `s`. -/
def reload_tail (e : SchemaEnv) (s : State) : List Call :=
  if parse_attempted e s then
    parse_log e s.txtTSDLfile false ++
      (if e.ctf_parse_init = true ∧ e.ctf_parse_run = true then [Call.trace_enablectf 1]
       else [Call.ctf_parse_cleanup])
  else []

/-! ## Concrete inputs used by the witnesses and counterexamples -/

/-- A configuration file without any key: every setting takes its default. -/
def ini_empty : Ini :=
  { chan := fun _ => none, mode := none, format := none, tsdl := none, mcu_freq := none,
    bitrate := none, size := none }

/-- A channel table before `main` has written to it. -/
def reg_blank : Registry := fun _ => ⟨false, ⟨0, 0, 0⟩, none⟩

/-- The state on entry of the loop for an empty configuration file, a trace
interface that initialised, and an empty driver buffer. -/
def s_start : State := startup ini_empty reg_blank .TRACESTAT_OK []

/-- A probe that cannot be reached: the transport is closed and `bmp_connect`
fails after posting an error. -/
def pe_unreachable : ProbeEnv :=
  { rs232_isopen := false, bmp_connect := false,
    connect_posts := [(-1, "No probe".toList)], bmp_attach := false, attach_posts := [],
    attach_driver := [] }

/-- A probe that connects and attaches to a target with driver name "STM32F1". -/
def pe_attached : ProbeEnv :=
  { rs232_isopen := false, bmp_connect := true, connect_posts := [], bmp_attach := true,
    attach_posts := [], attach_driver := "STM32F1".toList }

/-- A schema environment in which no file is accessible. -/
def se_none : SchemaEnv :=
  { access := false, ctf_parse_init := false, init_notes := [], ctf_parse_run := false,
    run_notes := [], streams := [] }

/-- A widget that the operator does not touch. -/
def edit_idle : EditResult := { text := none, commited := false, deactivated := false }

/-- A channel cell that the operator does not touch. -/
def chan_idle : ChanInput :=
  { checkbox := false, popup := false, r := none, g := none, b := none, name := none }

/-- A frame without operator input. -/
def g_idle : GuiInput :=
  { nk_begin := true, mode_combo := none, cpuclock_edit := edit_idle, bitrate_edit := edit_idle,
    format_combo := none, tsdl_edit := edit_idle, folder_button := false, open_dialog := none,
    chan := fun _ => chan_idle, run_button := false, trace_init := .TRACESTAT_OK,
    clear_button := false, search_button := false, save_button := false, save_dialog := none,
    popup_begin := false, findtext_edit := none, find_button := false, tracestring_find := -1,
    cancel_button := false }

/-- A frame in which the operator clicks the check box of channel 1. -/
def g_click1 : GuiInput :=
  { g_idle with chan := fun c => if c = 1 then { chan_idle with checkbox := true } else chan_idle }

/-- The state on entry of the loop for an empty configuration file, a trace
interface that initialised, and a driver buffer that holds the stale text
"?". -/
def s_start_stale : State := startup ini_empty reg_blank .TRACESTAT_OK "?".toList

/-- The state right after the first reconfiguration pass of a session in which
the probe cannot be reached: one idle iteration from start-up, then the
opening statement of the second iteration. -/
def s_failed_pass : State :=
  reinit_block pe_unreachable (iteration pe_unreachable se_none g_idle s_start_stale)

/-- The state at the end of the second iteration of that session when the
operator clicks the check box of channel 1 during it. -/
def s_failed_pass_toggle : State :=
  run s_start_stale [(pe_unreachable, se_none, g_idle), (pe_unreachable, se_none, g_click1)]

/-- A frame in which the operator selects the mode "Async." in the combo box. -/
def g_async : GuiInput := { g_idle with mode_combo := some .MODE_ASYNC }

/-- The state after two iterations from start-up with a probe that attaches:
the start-up pass succeeded in the second, in which the operator also selected
the mode "Async.", so that a further pass is pending. -/
def s_connected : State :=
  run s_start [(pe_attached, se_none, g_idle), (pe_attached, se_none, g_async)]

/-- A state in which an earlier search has put the match cursor on line 3 and
the search text is "abc". -/
def s_match3 : State := { s_start with findtext := "abc".toList, cur_match_line := 3 }

/-- A configuration file that selects the mode "Async." and nothing else. -/
def ini_async : Ini := { ini_empty with mode := some .MODE_ASYNC }

/-- The state in which the first pass of a session in Async mode begins: one
idle iteration after start-up; the bit-rate text is "100000" and `bitrate`
still holds its initial value 0. -/
def s_async_first : State :=
  iteration pe_attached se_none g_idle (startup ini_async reg_blank .TRACESTAT_OK [])

/-- The state in which a pass begins with the clock text "1000" and the
bit-rate text "100000", in Async mode. -/
def s_lowclock : State := { s_async_first with cpuclock_str := "1000".toList }

/-- The call is an operation on the probe or on the transport. -/
def is_probe_op : Call → Bool
  | .bmp_break => true
  | .gdbrsp_packetsize _ => true
  | .bmp_detach _ => true
  | .rs232_dtr _ => true
  | .rs232_rts _ => true
  | .rs232_close => true
  | .bmp_connect => true
  | .bmp_attach _ => true
  | .bmp_enabletrace _ => true
  | .bmp_runscript _ _ _ => true
  | .bmp_restart => true
  | _ => false

/-- The calls of one reconfiguration pass that starts in state `s`, up to and
including `tracestring_clear()`. -/
def pass_calls (e : ProbeEnv) (s : State) : List Call :=
  (if e.rs232_isopen then [Call.bmp_break] else []) ++
    (if s.opt_mode = .MODE_PASSIVE then
      Call.gdbrsp_packetsize 0 ::
        (if e.rs232_isopen then
          [Call.bmp_detach 1, Call.rs232_dtr 0, Call.rs232_rts 0, Call.rs232_close]
        else [])
    else
      connect_attach_log e ++
        (if e.bmp_connect = true ∧ e.bmp_attach = true then setup_calls s e.attach_driver
         else [])) ++
    [Call.tracestring_clear]

/-- The content of `mcu_driver` after the probe part of a pass. -/
def pass_driver (e : ProbeEnv) (s : State) : CStr :=
  if s.opt_mode ≠ .MODE_PASSIVE ∧ e.bmp_connect = true then e.attach_driver else s.mcu_driver

/-- A configuration file that selects the mode "Passive listener". -/
def ini_passive : Ini := { ini_empty with mode := some .MODE_PASSIVE }

/-- The state in which the first pass of a session in Passive mode begins: one
idle iteration after start-up. -/
def s_passive_first : State :=
  iteration pe_unreachable se_none g_idle (startup ini_passive reg_blank .TRACESTAT_OK [])

/-- The mode, the trace of calls, the mask, the pending counter and the enabled
flags of `s2` are those of `s1`. -/
def same_toggle_view (s1 s2 : State) : Prop :=
  s2.opt_mode = s1.opt_mode ∧ s2.log = s1.log ∧ s2.channelmask = s1.channelmask ∧
    State.reinitialize s2 = s1.reinitialize ∧
    ∀ i, channel_getenabled s2.channels i = channel_getenabled s1.channels i

/-- A frame in which the operator clicks the check boxes of channels 0 and 1. -/
def g_click01 : GuiInput :=
  { g_idle with chan := fun c => if c < 2 then { chan_idle with checkbox := true } else chan_idle }

/-- The name of stream `seqnr` when the stream exists and its name is present
and not empty; `none` otherwise. -/
def named_stream (streams : List (Option CTF_STREAM)) (seqnr : Nat) : Option CStr :=
  match stream_by_seqnr streams seqnr with
  | some stream =>
      if stream.name ≠ none ∧ (stream.name.getD []).length > 0 then stream.name else none
  | none => none

/-- A schema environment in which the schema parses and defines the streams 0
("alpha"), 1 (empty name), 2 (no name) and 4 ("late"), but no stream 3. -/
def se_streams : SchemaEnv :=
  { access := true, ctf_parse_init := true, init_notes := [], ctf_parse_run := true,
    run_notes := [],
    streams := [some ⟨some "alpha".toList⟩, some ⟨some []⟩, some ⟨none⟩, none,
      some ⟨some "late".toList⟩] }

/-- The start-up state with the format set to Structured and a schema path. -/
def s_structured : State := { s_start with opt_format := 1, txtTSDLfile := "trace.tsdl".toList }

/-! ## Auxiliary lemmas -/

theorem testBit_shl1 : ∀ chan : Fin 32, ∀ i : Fin 32,
    (toULong (shl1 chan.val)).testBit i.val = decide (i.val = chan.val) := by
  decide

theorem testBit_bitnot_shl1 : ∀ chan : Fin 32, ∀ i : Fin 32,
    (toULong (bitnot (shl1 chan.val))).testBit i.val = decide (i.val ≠ chan.val) := by
  decide

theorem run_posts_eq (ps : List (Int × CStr)) (s : State) :
    run_posts ps s =
      { s with
        recent_statuscode := ((ps.map Prod.fst).getLast?).getD s.recent_statuscode
        log := s.log ++ ps.map (fun p => Call.tracelog_statusmsg .TRACESTATMSG_BMP (some p.2) p.1) } := by
  induction ps generalizing s with
  | nil => simp [run_posts]
  | cons p ps ih =>
    have h : run_posts (p :: ps) s = run_posts ps (bmp_callback p.1 (some p.2) s).1 := rfl
    rw [h, ih]
    cases ps with
    | nil => simp [bmp_callback, emit]
    | cons q qs =>
      simp only [bmp_callback, emit, List.map_cons, List.getLast?_cons_cons, List.append_assoc,
        List.singleton_append]
      rw [List.getLast?_eq_getLast _ (List.cons_ne_nil _ _)]
      simp

theorem channelmask_fold_testBit (reg : Registry) (n : Nat) (hn : n ≤ 32) (i : Nat)
    (hi : i < 32) :
    ((List.range n).foldl
      (fun mask chan => if channel_getenabled reg chan then mask ||| toULong (shl1 chan) else mask)
      0).testBit i = (decide (i < n) && channel_getenabled reg i) := by
  induction n with
  | zero => simp
  | succ k ih =>
    rw [List.range_succ, List.foldl_append]
    simp only [List.foldl_cons, List.foldl_nil]
    have hk : k < 32 := by omega
    have hb := testBit_shl1 ⟨k, hk⟩ ⟨i, hi⟩
    simp only at hb
    by_cases hik : i = k
    · subst hik
      by_cases he : channel_getenabled reg i = true
      · simp [he, Nat.testBit_lor, hb]
      · simp [he, ih (by omega)]
    · have hlt : (decide (i < k + 1)) = decide (i < k) := by
        apply decide_eq_decide.mpr; omega
      by_cases he : channel_getenabled reg k = true
      · simp [he, Nat.testBit_lor, hb, hik, ih (by omega), hlt]
      · simp [he, ih (by omega), hlt]

theorem channelmask_loop_testBit (reg : Registry) (i : Nat) (hi : i < 32) :
    (channelmask_loop reg).testBit i = channel_getenabled reg i := by
  unfold channelmask_loop NUM_CHANNELS
  rw [channelmask_fold_testBit reg 32 (le_refl _) i hi]
  simp [hi]

theorem same_mask_view_refl (s : State) : same_mask_view s s := ⟨rfl, fun _ => rfl⟩

theorem same_mask_view_trans {s1 s2 s3 : State} (h12 : same_mask_view s1 s2)
    (h23 : same_mask_view s2 s3) : same_mask_view s1 s3 :=
  ⟨h23.1.trans h12.1, fun i => (h23.2 i).trans (h12.2 i)⟩

theorem mask_agrees_of_same_view {s1 s2 : State} (h : same_mask_view s1 s2)
    (h1 : mask_agrees s1) : mask_agrees s2 := by
  intro i hi
  rw [h.1, h.2 i]
  exact h1 i hi

theorem status_switch_view (s : State) : same_mask_view s (status_switch s) := by
  unfold status_switch same_mask_view
  split <;> simp only [emit] <;> (try split_ifs) <;> simp

theorem parse_rates_eq (s : State) :
    parse_rates s =
      { s with
        cpuclock := effective_clock s.cpuclock_str
        bitrate := effective_bitrate s.bitrate_str } := by
  unfold parse_rates effective_clock effective_bitrate
  simp only []
  split_ifs <;> rfl

theorem connected_setup_eq (s : State) :
    connected_setup s =
      { s with
        cpuclock := effective_clock s.cpuclock_str
        bitrate := effective_bitrate s.bitrate_str
        channelmask := channelmask_loop s.channels
        log := s.log ++ setup_calls s s.mcu_driver } := by
  unfold connected_setup
  simp only [parse_rates_eq, emit, setup_calls, prescaler, List.append_assoc,
    List.singleton_append, List.cons_append, List.nil_append]

theorem connected_setup_channels (s : State) : (connected_setup s).channels = s.channels := by
  rw [connected_setup_eq]

theorem connected_setup_channelmask (s : State) :
    (connected_setup s).channelmask = channelmask_loop s.channels := by
  rw [connected_setup_eq]

theorem connected_setup_agrees (s : State) : mask_agrees (connected_setup s) := by
  intro i hi
  rw [connected_setup_channelmask, connected_setup_channels,
    channelmask_loop_testBit _ i hi]

/-! ### Frame lemmas: `emit` and the callbacks -/

@[simp] theorem emit_log (c : Call) (s : State) : (emit c s).log = s.log ++ [c] := rfl

@[simp] theorem emit_channels (c : Call) (s : State) : (emit c s).channels = s.channels := rfl

@[simp] theorem emit_channelmask (c : Call) (s : State) : (emit c s).channelmask = s.channelmask := rfl

@[simp] theorem emit_opt_mode (c : Call) (s : State) : (emit c s).opt_mode = s.opt_mode := rfl

@[simp] theorem emit_opt_format (c : Call) (s : State) : (emit c s).opt_format = s.opt_format := rfl

@[simp] theorem emit_cpuclock_str (c : Call) (s : State) : (emit c s).cpuclock_str = s.cpuclock_str := rfl

@[simp] theorem emit_bitrate_str (c : Call) (s : State) : (emit c s).bitrate_str = s.bitrate_str := rfl

@[simp] theorem emit_cpuclock (c : Call) (s : State) : (emit c s).cpuclock = s.cpuclock := rfl

@[simp] theorem emit_bitrate (c : Call) (s : State) : (emit c s).bitrate = s.bitrate := rfl

@[simp] theorem emit_txtTSDLfile (c : Call) (s : State) : (emit c s).txtTSDLfile = s.txtTSDLfile := rfl

@[simp] theorem emit_mcu_driver (c : Call) (s : State) : (emit c s).mcu_driver = s.mcu_driver := rfl

@[simp] theorem emit_valstr (c : Call) (s : State) : (emit c s).valstr = s.valstr := rfl

@[simp] theorem emit_findtext (c : Call) (s : State) : (emit c s).findtext = s.findtext := rfl

@[simp] theorem emit_cur_chan_edit (c : Call) (s : State) : (emit c s).cur_chan_edit = s.cur_chan_edit := rfl

@[simp] theorem emit_trace_status (c : Call) (s : State) : (emit c s).trace_status = s.trace_status := rfl

@[simp] theorem emit_trace_running (c : Call) (s : State) : (emit c s).trace_running = s.trace_running := rfl

@[simp] theorem emit_pending (c : Call) (s : State) : State.reinitialize (emit c s) = s.reinitialize := rfl

@[simp] theorem emit_reload_format (c : Call) (s : State) : (emit c s).reload_format = s.reload_format := rfl

@[simp] theorem emit_cur_match_line (c : Call) (s : State) : (emit c s).cur_match_line = s.cur_match_line := rfl

@[simp] theorem emit_find_popup (c : Call) (s : State) : (emit c s).find_popup = s.find_popup := rfl

@[simp] theorem emit_recent_statuscode (c : Call) (s : State) : (emit c s).recent_statuscode = s.recent_statuscode := rfl

@[simp] theorem emit_ctf_statusset (c : Call) (s : State) : (emit c s).ctf_statusset = s.ctf_statusset := rfl

@[simp] theorem emit_passes (c : Call) (s : State) : (emit c s).passes = s.passes := rfl

@[simp] theorem run_posts_log (ps : List (Int × CStr)) (s : State) :
    (run_posts ps s).log =
      s.log ++ ps.map (fun p => Call.tracelog_statusmsg .TRACESTATMSG_BMP (some p.2) p.1) := by
  rw [run_posts_eq]

@[simp] theorem run_posts_recent_statuscode (ps : List (Int × CStr)) (s : State) :
    (run_posts ps s).recent_statuscode =
      ((ps.map Prod.fst).getLast?).getD s.recent_statuscode := by
  rw [run_posts_eq]

@[simp] theorem run_posts_channels (ps : List (Int × CStr)) (s : State) :
    (run_posts ps s).channels = s.channels := by
  rw [run_posts_eq]

@[simp] theorem run_posts_channelmask (ps : List (Int × CStr)) (s : State) :
    (run_posts ps s).channelmask = s.channelmask := by
  rw [run_posts_eq]

@[simp] theorem run_posts_opt_mode (ps : List (Int × CStr)) (s : State) :
    (run_posts ps s).opt_mode = s.opt_mode := by
  rw [run_posts_eq]

@[simp] theorem run_posts_opt_format (ps : List (Int × CStr)) (s : State) :
    (run_posts ps s).opt_format = s.opt_format := by
  rw [run_posts_eq]

@[simp] theorem run_posts_cpuclock_str (ps : List (Int × CStr)) (s : State) :
    (run_posts ps s).cpuclock_str = s.cpuclock_str := by
  rw [run_posts_eq]

@[simp] theorem run_posts_bitrate_str (ps : List (Int × CStr)) (s : State) :
    (run_posts ps s).bitrate_str = s.bitrate_str := by
  rw [run_posts_eq]

@[simp] theorem run_posts_cpuclock (ps : List (Int × CStr)) (s : State) :
    (run_posts ps s).cpuclock = s.cpuclock := by
  rw [run_posts_eq]

@[simp] theorem run_posts_bitrate (ps : List (Int × CStr)) (s : State) :
    (run_posts ps s).bitrate = s.bitrate := by
  rw [run_posts_eq]

@[simp] theorem run_posts_txtTSDLfile (ps : List (Int × CStr)) (s : State) :
    (run_posts ps s).txtTSDLfile = s.txtTSDLfile := by
  rw [run_posts_eq]

@[simp] theorem run_posts_mcu_driver (ps : List (Int × CStr)) (s : State) :
    (run_posts ps s).mcu_driver = s.mcu_driver := by
  rw [run_posts_eq]

@[simp] theorem run_posts_valstr (ps : List (Int × CStr)) (s : State) :
    (run_posts ps s).valstr = s.valstr := by
  rw [run_posts_eq]

@[simp] theorem run_posts_findtext (ps : List (Int × CStr)) (s : State) :
    (run_posts ps s).findtext = s.findtext := by
  rw [run_posts_eq]

@[simp] theorem run_posts_cur_chan_edit (ps : List (Int × CStr)) (s : State) :
    (run_posts ps s).cur_chan_edit = s.cur_chan_edit := by
  rw [run_posts_eq]

@[simp] theorem run_posts_trace_status (ps : List (Int × CStr)) (s : State) :
    (run_posts ps s).trace_status = s.trace_status := by
  rw [run_posts_eq]

@[simp] theorem run_posts_trace_running (ps : List (Int × CStr)) (s : State) :
    (run_posts ps s).trace_running = s.trace_running := by
  rw [run_posts_eq]

@[simp] theorem run_posts_pending (ps : List (Int × CStr)) (s : State) :
    State.reinitialize (run_posts ps s) = s.reinitialize := by
  rw [run_posts_eq]

@[simp] theorem run_posts_reload_format (ps : List (Int × CStr)) (s : State) :
    (run_posts ps s).reload_format = s.reload_format := by
  rw [run_posts_eq]

@[simp] theorem run_posts_cur_match_line (ps : List (Int × CStr)) (s : State) :
    (run_posts ps s).cur_match_line = s.cur_match_line := by
  rw [run_posts_eq]

@[simp] theorem run_posts_find_popup (ps : List (Int × CStr)) (s : State) :
    (run_posts ps s).find_popup = s.find_popup := by
  rw [run_posts_eq]

@[simp] theorem run_posts_ctf_statusset (ps : List (Int × CStr)) (s : State) :
    (run_posts ps s).ctf_statusset = s.ctf_statusset := by
  rw [run_posts_eq]

@[simp] theorem run_posts_passes (ps : List (Int × CStr)) (s : State) :
    (run_posts ps s).passes = s.passes := by
  rw [run_posts_eq]

/-! ### The reconfiguration sequence in closed form -/

theorem halt_target_eq (e : ProbeEnv) (s : State) :
    halt_target e s =
      { s with log := s.log ++ (if e.rs232_isopen then [Call.bmp_break] else []) } := by
  unfold halt_target
  split_ifs <;> simp [emit]

theorem passive_teardown_eq (e : ProbeEnv) (s : State) :
    passive_teardown e s =
      { s with log := s.log ++ Call.gdbrsp_packetsize 0 ::
          (if e.rs232_isopen then
            [Call.bmp_detach 1, Call.rs232_dtr 0, Call.rs232_rts 0, Call.rs232_close]
          else []) } := by
  unfold passive_teardown
  split_ifs <;> simp [emit]

theorem connect_attach_snd (e : ProbeEnv) (s : State) :
    (connect_attach e s).2 = (e.bmp_connect && e.bmp_attach) := by
  unfold connect_attach
  cases e.bmp_connect <;> simp

theorem connect_attach_fst (e : ProbeEnv) (s : State) :
    (connect_attach e s).1 =
      { s with
        log := s.log ++ connect_attach_log e
        mcu_driver := if e.bmp_connect then e.attach_driver else s.mcu_driver
        recent_statuscode :=
          (((e.connect_posts ++ (if e.bmp_connect then e.attach_posts else [])).map
            Prod.fst).getLast?).getD s.recent_statuscode } := by
  unfold connect_attach connect_attach_log
  cases hc : e.bmp_connect
  · simp [run_posts_eq, emit]
  · simp only [run_posts_eq, emit, if_true, List.map_append, List.getLast?_append]
    simp
    cases e.attach_posts.getLast? <;> simp

theorem halt_target_view (e : ProbeEnv) (s : State) : same_mask_view s (halt_target e s) := by
  rw [halt_target_eq]; exact ⟨rfl, fun _ => rfl⟩

theorem passive_teardown_view (e : ProbeEnv) (s : State) :
    same_mask_view s (passive_teardown e s) := by
  rw [passive_teardown_eq]; exact ⟨rfl, fun _ => rfl⟩

theorem connect_attach_view (e : ProbeEnv) (s : State) :
    same_mask_view s (connect_attach e s).1 := by
  rw [connect_attach_fst]; exact ⟨rfl, fun _ => rfl⟩

theorem probe_sequence_agrees (e : ProbeEnv) (s : State) (h : mask_agrees s) :
    mask_agrees (probe_sequence e s) := by
  unfold probe_sequence
  simp only
  split_ifs
  · exact mask_agrees_of_same_view
      (same_mask_view_trans (halt_target_view e s) (passive_teardown_view e _)) h
  · exact connected_setup_agrees _
  · exact mask_agrees_of_same_view
      (same_mask_view_trans (halt_target_view e s) (connect_attach_view e _)) h

theorem halt_target_opt_mode (e : ProbeEnv) (s : State) :
    (halt_target e s).opt_mode = s.opt_mode := by
  rw [halt_target_eq]

theorem probe_sequence_success_eq (e : ProbeEnv) (s : State)
    (hmode : s.opt_mode ≠ .MODE_PASSIVE) (hc : e.bmp_connect = true) (ha : e.bmp_attach = true) :
    probe_sequence e s = connected_setup (connect_attach e (halt_target e s)).1 := by
  unfold probe_sequence
  simp only [halt_target_opt_mode, hmode, if_false, connect_attach_snd, hc, ha, Bool.and_self,
    if_true]

theorem probe_sequence_failure_eq (e : ProbeEnv) (s : State)
    (hmode : s.opt_mode ≠ .MODE_PASSIVE) (hf : e.bmp_connect = false ∨ e.bmp_attach = false) :
    probe_sequence e s = (connect_attach e (halt_target e s)).1 := by
  unfold probe_sequence
  have h : (e.bmp_connect && e.bmp_attach) = false := by
    rcases hf with h | h <;> simp [h]
  simp [halt_target_opt_mode, hmode, connect_attach_snd, h]

theorem probe_sequence_passive_eq (e : ProbeEnv) (s : State)
    (hmode : s.opt_mode = .MODE_PASSIVE) :
    probe_sequence e s = passive_teardown e (halt_target e s) := by
  unfold probe_sequence
  simp [halt_target_opt_mode, hmode]

theorem reconfigure_eq (e : ProbeEnv) (s : State) :
    reconfigure e s =
      { status_switch (emit .tracestring_clear (probe_sequence e { s with passes := s.passes + 1 }))
        with reinitialize := 0 } := rfl

/-! ### The status callbacks in closed form -/

theorem ctf_error_notify_text (code linenr : Int) (message : CStr) (s : State) :
    ctf_error_notify code linenr (some message) s =
      some ({ s with
        ctf_statusset := decide (code ≠ CTFERR_NONE)
        log := s.log ++ notify_log code linenr message s.ctf_statusset }, 0) := by
  unfold ctf_error_notify notify_log
  by_cases hc : code = CTFERR_NONE
  · simp [hc, emit]
  · cases hs : s.ctf_statusset
    · simp [hc, hs, emit]
    · simp only [hc, hs, emit]
      cases s
      simp_all

theorem ctf_error_notify_reset (linenr : Int) (message : Option CStr) (s : State) :
    ctf_error_notify CTFERR_NONE linenr message s =
      some ({ s with
        ctf_statusset := false
        log := s.log ++ [Call.ctf_error_notify CTFERR_NONE linenr] }, 0) := by
  unfold ctf_error_notify
  simp [emit]

theorem ctf_error_notify_sticky (code linenr : Int) (message : Option CStr) (s : State)
    (hc : code ≠ CTFERR_NONE) (hs : s.ctf_statusset = true) :
    ctf_error_notify code linenr message s = some (emit (.ctf_error_notify code linenr) s, 0) := by
  unfold ctf_error_notify
  simp [hc, hs, emit]

theorem ctf_error_notify_null (code linenr : Int) (s : State)
    (hc : code ≠ CTFERR_NONE) (hs : s.ctf_statusset = false) :
    ctf_error_notify code linenr none s = none := by
  unfold ctf_error_notify
  simp [hc, hs, emit]

theorem run_notes_eq (ns : List CtfNote) (s : State) :
    run_notes ns s =
      { s with
        ctf_statusset := notes_set ns s.ctf_statusset
        log := s.log ++ notes_log ns s.ctf_statusset } := by
  induction ns generalizing s with
  | nil => simp [run_notes, notes_set, notes_log]
  | cons n ns ih =>
    have h : run_notes (n :: ns) s =
        run_notes ns (after_notify (ctf_error_notify n.code n.linenr (some n.message) s) s) := rfl
    rw [h, ih, ctf_error_notify_text]
    simp [after_notify, notes_set, notes_log]

theorem notes_log_decode (ns : List CtfNote) (set : Bool) :
    ∀ c ∈ notes_log ns set, is_decode_note c = true := by
  induction ns generalizing set with
  | nil => simp [notes_log]
  | cons n ns ih =>
    intro c hc
    simp only [notes_log, List.mem_append] at hc
    rcases hc with hc | hc
    · unfold notify_log at hc
      simp only [List.mem_cons] at hc
      rcases hc with hc | hc
      · rw [hc]; rfl
      · split_ifs at hc
        · simp only [List.mem_singleton] at hc
          rw [hc]; rfl
        · simp at hc
    · exact ih _ c hc

/-! ### The format reload in closed form -/

theorem reload_teardown_eq (s : State) :
    reload_teardown s =
      { s with cur_match_line := -1, ctf_statusset := false, log := s.log ++ teardown_calls } := by
  unfold reload_teardown
  simp only [ctf_error_notify_reset, after_notify]
  simp [emit, teardown_calls]

theorem parse_schema_snd (e : SchemaEnv) (s : State) :
    (parse_schema e s).2 = (e.ctf_parse_init && e.ctf_parse_run) := by
  unfold parse_schema
  cases e.ctf_parse_init <;> simp

theorem parse_schema_fst (e : SchemaEnv) (s : State) :
    (parse_schema e s).1 =
      { s with
        ctf_statusset :=
          if e.ctf_parse_init then notes_set e.run_notes (notes_set e.init_notes s.ctf_statusset)
          else notes_set e.init_notes s.ctf_statusset
        log := s.log ++ parse_log e s.txtTSDLfile s.ctf_statusset } := by
  unfold parse_schema parse_log
  cases e.ctf_parse_init <;> simp [run_notes_eq, emit]

theorem reload_build_log (e : SchemaEnv) (s : State) :
    (reload_build e s).log = s.log ++
      (if parse_attempted e s then
        parse_log e s.txtTSDLfile s.ctf_statusset ++
          (if e.ctf_parse_init = true ∧ e.ctf_parse_run = true then [Call.trace_enablectf 1]
           else [Call.ctf_parse_cleanup])
      else []) := by
  unfold reload_build parse_attempted
  simp only [parse_schema_snd]
  split_ifs <;> simp_all [parse_schema_fst]

theorem reload_build_channelmask (e : SchemaEnv) (s : State) :
    (reload_build e s).channelmask = s.channelmask := by
  unfold reload_build
  simp only [parse_schema_snd]
  split_ifs <;> simp [parse_schema_fst]

theorem reload_build_cur_match_line (e : SchemaEnv) (s : State) :
    (reload_build e s).cur_match_line = s.cur_match_line := by
  unfold reload_build
  simp only [parse_schema_snd]
  split_ifs <;> simp [parse_schema_fst]

theorem reload_build_channels (e : SchemaEnv) (s : State) :
    (reload_build e s).channels =
      if parse_attempted e s ∧ e.ctf_parse_init = true ∧ e.ctf_parse_run = true then
        stream_names e.streams (e.streams.length + 1) 0 s.channels
      else s.channels := by
  unfold reload_build parse_attempted
  simp only [parse_schema_snd]
  split_ifs <;> simp_all [parse_schema_fst]

theorem channel_setname_enabled (reg : Registry) (index : Nat) (name : Option CStr) (i : Nat) :
    channel_getenabled (channel_setname reg index name) i = channel_getenabled reg i := by
  unfold channel_getenabled channel_setname
  split_ifs <;> rfl

theorem channel_setcolor_enabled (reg : Registry) (index : Nat) (color : Color) (i : Nat) :
    channel_getenabled (channel_setcolor reg index color) i = channel_getenabled reg i := by
  unfold channel_getenabled channel_setcolor
  split_ifs <;> rfl

theorem stream_names_enabled (streams : List (Option CTF_STREAM)) (fuel seqnr : Nat)
    (reg : Registry) (i : Nat) :
    channel_getenabled (stream_names streams fuel seqnr reg) i = channel_getenabled reg i := by
  induction fuel generalizing seqnr reg with
  | zero => rfl
  | succ k ih =>
    unfold stream_names
    split
    · rfl
    · rw [ih]
      split_ifs
      · exact channel_setname_enabled _ _ _ _
      · rfl

theorem reload_block_view (e : SchemaEnv) (s : State) : same_mask_view s (reload_block e s) := by
  unfold reload_block
  split_ifs
  · unfold reload_body
    refine ⟨?_, fun i => ?_⟩
    · show (reload_build e (reload_teardown s)).channelmask = s.channelmask
      rw [reload_build_channelmask, reload_teardown_eq]
    · show channel_getenabled (reload_build e (reload_teardown s)).channels i = _
      rw [reload_build_channels]
      split_ifs
      · rw [stream_names_enabled, reload_teardown_eq]
      · rw [reload_teardown_eq]
  · exact same_mask_view_refl s

/-! ### The mask invariant through one iteration -/

theorem reconfigure_view (e : ProbeEnv) (s : State) :
    same_mask_view (probe_sequence e { s with passes := s.passes + 1 }) (reconfigure e s) := by
  rw [reconfigure_eq]
  have h := status_switch_view
    (emit .tracestring_clear (probe_sequence e { s with passes := s.passes + 1 }))
  exact ⟨h.1, h.2⟩

theorem reconfigure_agrees (e : ProbeEnv) (s : State) (h : mask_agrees s) :
    mask_agrees (reconfigure e s) :=
  mask_agrees_of_same_view (reconfigure_view e s) (probe_sequence_agrees e _ h)

theorem reconfigure_success_agrees (e : ProbeEnv) (s : State)
    (hmode : s.opt_mode ≠ .MODE_PASSIVE) (hc : e.bmp_connect = true)
    (ha : e.bmp_attach = true) : mask_agrees (reconfigure e s) := by
  refine mask_agrees_of_same_view (reconfigure_view e s) ?_
  have hm : ({ s with passes := s.passes + 1 } : State).opt_mode ≠ .MODE_PASSIVE := hmode
  rw [probe_sequence_success_eq e _ hm hc ha]
  exact connected_setup_agrees _

theorem reinit_block_agrees (e : ProbeEnv) (s : State) (h : mask_agrees s) :
    mask_agrees (reinit_block e s) := by
  unfold reinit_block
  split_ifs
  · exact reconfigure_agrees e s h
  · exact h
  · exact h

theorem channel_toggle_bit (chan : Nat) (enabled : Bool) (s : State) (hchan : chan < 32)
    (i : Nat) (hi : i < 32) :
    (channel_toggle chan enabled s).channelmask.testBit i =
      if i = chan then enabled else s.channelmask.testBit i := by
  have h1 := testBit_shl1 ⟨chan, hchan⟩ ⟨i, hi⟩
  have h2 := testBit_bitnot_shl1 ⟨chan, hchan⟩ ⟨i, hi⟩
  simp only at h1 h2
  unfold channel_toggle
  by_cases hic : i = chan
  · subst hic
    cases enabled <;> simp [Nat.testBit_lor, Nat.testBit_land, h1, h2]
  · cases enabled <;> simp [Nat.testBit_lor, Nat.testBit_land, h1, h2, hic]

theorem channel_toggle_enabled (chan : Nat) (enabled : Bool) (s : State) (hchan : chan < 32)
    (i : Nat) :
    channel_getenabled (channel_toggle chan enabled s).channels i =
      if i = chan then enabled else channel_getenabled s.channels i := by
  unfold channel_toggle
  cases enabled <;> by_cases hic : i = chan <;>
    simp [channel_getenabled, channel_setenabled, hic, NUM_CHANNELS, hchan]

theorem channel_toggle_agrees (chan : Nat) (enabled : Bool) (s : State) (hchan : chan < 32)
    (h : mask_agrees s) : mask_agrees (channel_toggle chan enabled s) := by
  intro i hi
  rw [channel_toggle_bit chan enabled s hchan i hi, channel_toggle_enabled chan enabled s hchan i]
  by_cases hic : i = chan
  · simp [hic]
  · simpa [hic] using h i hi

theorem mode_row_view (g : GuiInput) (s : State) : same_mask_view s (mode_row g s) := by
  unfold mode_row
  simp only []
  split_ifs <;> exact ⟨rfl, fun _ => rfl⟩

theorem clock_row_view (g : GuiInput) (s : State) : same_mask_view s (clock_row g s) := by
  unfold clock_row
  simp only []
  split_ifs <;> exact ⟨rfl, fun _ => rfl⟩

theorem format_row_view (g : GuiInput) (s : State) : same_mask_view s (format_row g s) := by
  unfold format_row
  simp only []
  split_ifs <;> (try split) <;> (try split_ifs) <;> exact ⟨rfl, fun _ => rfl⟩

theorem run_button_view (g : GuiInput) (s : State) : same_mask_view s (run_button g s) := by
  unfold run_button
  simp only []
  split_ifs <;> exact ⟨rfl, fun _ => rfl⟩

theorem button_row_view (g : GuiInput) (s : State) : same_mask_view s (button_row g s) := by
  unfold button_row
  simp only []
  split_ifs <;> (try split) <;> exact ⟨rfl, fun _ => rfl⟩

theorem find_action_view (line : Int) (s : State) : same_mask_view s (find_action line s) := by
  unfold find_action
  split_ifs <;> exact ⟨rfl, fun _ => rfl⟩

theorem search_popup_view (g : GuiInput) (s : State) : same_mask_view s (search_popup g s) := by
  unfold search_popup
  simp only []
  split_ifs <;>
    first
    | exact ⟨rfl, fun _ => rfl⟩
    | exact find_action_view _ _

theorem channel_checkbox_agrees (g : GuiInput) (s : State) (chan : Nat) (hchan : chan < 32)
    (h : mask_agrees s) : mask_agrees (channel_checkbox g s chan) := by
  unfold channel_checkbox
  simp only []
  by_cases hc : ((g.chan chan).checkbox = true ∧ s.opt_mode.ord > Mode.MODE_PASSIVE.ord)
  · rw [if_pos hc]; exact channel_toggle_agrees chan _ s hchan h
  · rw [if_neg hc]; exact h

theorem channel_popup_view (g : GuiInput) (s : State) (chan : Nat) :
    same_mask_view s (channel_popup g s chan) := by
  unfold channel_popup
  simp only []
  split_ifs
  all_goals
    first
    | exact ⟨rfl, fun _ => rfl⟩
    | exact ⟨rfl, fun _ => channel_setcolor_enabled _ _ _ _⟩
    | exact ⟨rfl, fun _ => channel_setname_enabled _ _ _ _⟩

theorem channel_cell_agrees (g : GuiInput) (s : State) (chan : Nat) (hchan : chan < 32)
    (h : mask_agrees s) : mask_agrees (channel_cell g s chan) :=
  mask_agrees_of_same_view (channel_popup_view g _ chan) (channel_checkbox_agrees g s chan hchan h)

theorem channel_grid_agrees (g : GuiInput) (s : State) (h : mask_agrees s) :
    mask_agrees (channel_grid g s) := by
  unfold channel_grid
  have key : ∀ (l : List Nat), (∀ c ∈ l, c < 32) → ∀ s1 : State, mask_agrees s1 →
      mask_agrees (l.foldl (channel_cell g) s1) := by
    intro l
    induction l with
    | nil => intro _ s1 h1; exact h1
    | cons c l ih =>
      intro hl s1 h1
      rw [List.foldl_cons]
      exact ih (fun d hd => hl d (List.mem_cons_of_mem _ hd)) _
        (channel_cell_agrees g s1 c (hl c (List.mem_cons_self _ _)) h1)
  exact key _ (fun c hc => List.mem_range.mp hc) s h

theorem gui_agrees (g : GuiInput) (s : State) (h : mask_agrees s) : mask_agrees (gui g s) := by
  unfold gui
  split_ifs
  · simp only []
    refine mask_agrees_of_same_view (search_popup_view g _) ?_
    refine mask_agrees_of_same_view (button_row_view g _) ?_
    refine mask_agrees_of_same_view (run_button_view g _) ?_
    refine @mask_agrees_of_same_view (channel_grid g (format_row g (clock_row g (mode_row g s)))) _
      ⟨rfl, fun _ => rfl⟩ ?_
    refine channel_grid_agrees g _ ?_
    refine mask_agrees_of_same_view (format_row_view g _) ?_
    refine mask_agrees_of_same_view (clock_row_view g _) ?_
    exact mask_agrees_of_same_view (mode_row_view g _) h
  · exact h

theorem iteration_agrees (pe : ProbeEnv) (se : SchemaEnv) (g : GuiInput) (s : State)
    (h : mask_agrees s) : mask_agrees (iteration pe se g s) := by
  unfold iteration
  exact gui_agrees g _ (mask_agrees_of_same_view (reload_block_view se _)
    (reinit_block_agrees pe s h))

/-! ## C1: channel mask and channel registry -/

theorem reconfigure_unsuccessful_view (e : ProbeEnv) (s : State)
    (h : s.opt_mode = .MODE_PASSIVE ∨ e.bmp_connect = false ∨ e.bmp_attach = false) :
    (reconfigure e s).channelmask = s.channelmask ∧
      ∀ i, channel_getenabled (reconfigure e s).channels i =
        channel_getenabled s.channels i := by
  have hv := reconfigure_view e s
  have hp : same_mask_view s (probe_sequence e { s with passes := s.passes + 1 }) := by
    by_cases hmode : s.opt_mode = .MODE_PASSIVE
    · have hm : ({ s with passes := s.passes + 1 } : State).opt_mode = .MODE_PASSIVE := hmode
      rw [probe_sequence_passive_eq e _ hm, passive_teardown_eq, halt_target_eq]
      exact ⟨rfl, fun _ => rfl⟩
    · have hm : ({ s with passes := s.passes + 1 } : State).opt_mode ≠ .MODE_PASSIVE := hmode
      have hf : e.bmp_connect = false ∨ e.bmp_attach = false := by
        rcases h with h | h
        · exact absurd h hmode
        · exact h
      rw [probe_sequence_failure_eq e _ hm hf, connect_attach_fst, halt_target_eq]
      exact ⟨rfl, fun _ => rfl⟩
  exact same_mask_view_trans hp hv

/-- C1 (amended): for every channel of the range [0, 32), a reconfiguration
pass in a mode other than Passive in which connect and attach succeed leaves
bit i of `channelmask` set exactly when channel i is enabled; a channel toggle
sets the bit of the toggled channel (channel 31 included) to the new value of
its enabled flag and leaves every other bit below 32 and every other flag as
it was, so the equivalence holds after a toggle whenever it held before it; and
once it holds it holds after every further iteration of the main loop,
whatever the iteration does.  A pass in Passive mode, and a pass whose connect
or attach failed, leaves the mask and every enabled flag as they were. -/
theorem C1_mask_agrees_after_successful_pass (pe : ProbeEnv) (se : SchemaEnv) (g : GuiInput)
    (s : State) (chan : Nat) (enabled : Bool) (hchan : chan < NUM_CHANNELS) :
    (s.opt_mode ≠ .MODE_PASSIVE → pe.bmp_connect = true → pe.bmp_attach = true →
        mask_agrees (reconfigure pe s)) ∧
    ((channel_toggle chan enabled s).channelmask.testBit chan = enabled ∧
      channel_getenabled (channel_toggle chan enabled s).channels chan = enabled ∧
      ∀ i, i < NUM_CHANNELS → i ≠ chan →
        (channel_toggle chan enabled s).channelmask.testBit i = s.channelmask.testBit i ∧
        channel_getenabled (channel_toggle chan enabled s).channels i =
          channel_getenabled s.channels i) ∧
    (mask_agrees s → mask_agrees (channel_toggle chan enabled s)) ∧
    (mask_agrees s → mask_agrees (iteration pe se g s)) ∧
    (s.opt_mode = .MODE_PASSIVE ∨ pe.bmp_connect = false ∨ pe.bmp_attach = false →
      (reconfigure pe s).channelmask = s.channelmask ∧
      ∀ i, channel_getenabled (reconfigure pe s).channels i =
        channel_getenabled s.channels i) := by
  have hchan32 : chan < 32 := hchan
  refine ⟨reconfigure_success_agrees pe s, ⟨?_, ?_, ?_⟩, channel_toggle_agrees chan enabled s hchan32,
    iteration_agrees pe se g s, reconfigure_unsuccessful_view pe s⟩
  · rw [channel_toggle_bit chan enabled s hchan32 chan hchan32]; simp
  · rw [channel_toggle_enabled chan enabled s hchan32 chan]; simp
  · intro i hi hne
    rw [channel_toggle_bit chan enabled s hchan32 i hi, channel_toggle_enabled chan enabled s hchan32 i]
    simp [hne]

set_option maxRecDepth 100000 in
/-- Witness of C1: from the start-up state a pass with a probe that attaches
establishes the equivalence, and a toggle of channel 31 keeps it. -/
theorem C1_mask_agrees_witness :
    31 < NUM_CHANNELS ∧ mask_agrees (reconfigure pe_attached s_start) ∧
      mask_agrees (channel_toggle 31 true (reconfigure pe_attached s_start)) :=
  ⟨by decide,
    (C1_mask_agrees_after_successful_pass pe_attached se_none g_idle s_start 31 true
      (by decide)).1 (by decide) rfl rfl,
    (C1_mask_agrees_after_successful_pass pe_attached se_none g_idle
      (reconfigure pe_attached s_start) 31 true (by decide)).2.2.1
      ((C1_mask_agrees_after_successful_pass pe_attached se_none g_idle s_start 31 true
        (by decide)).1 (by decide) rfl rfl)⟩

set_option maxRecDepth 100000 in
/-- C1 as stated fails: after a reconfiguration pass in Manchester mode whose
connect failed, channel 0 is enabled and bit 0 of the mask is clear (the mask is
0, as before the pass); a toggle of channel 1 that follows sets bit 1 and
leaves bit 0 clear. -/
theorem C1_counterexample :
    (s_failed_pass.passes = 1 ∧ s_failed_pass.opt_mode = .MODE_MANCHESTER ∧
      s_failed_pass.mcu_driver = "?".toList ∧ s_failed_pass.channelmask = 0 ∧
      channel_getenabled s_failed_pass.channels 0 = true ∧
      s_failed_pass.channelmask.testBit 0 = false ∧ ¬ mask_agrees s_failed_pass) ∧
    (s_failed_pass_toggle.passes = 1 ∧ s_failed_pass_toggle.opt_mode = .MODE_MANCHESTER ∧
      channel_getenabled s_failed_pass_toggle.channels 1 = true ∧
      s_failed_pass_toggle.channelmask.testBit 1 = true ∧
      channel_getenabled s_failed_pass_toggle.channels 0 = true ∧
      s_failed_pass_toggle.channelmask.testBit 0 = false ∧
      ¬ mask_agrees s_failed_pass_toggle) := by
  have h1 : channel_getenabled s_failed_pass.channels 0 = true := by decide
  have h2 : s_failed_pass.channelmask.testBit 0 = false := by decide
  have h3 : channel_getenabled s_failed_pass_toggle.channels 0 = true := by decide
  have h4 : s_failed_pass_toggle.channelmask.testBit 0 = false := by decide
  refine ⟨⟨by decide, by decide, by decide, by decide, h1, h2, ?_⟩, by decide, by decide,
    by decide, by decide, h3, h4, ?_⟩
  · intro h
    have := (h 0 (by decide)).mpr h1
    rw [h2] at this
    exact Bool.noConfusion this
  · intro h
    have := (h 0 (by decide)).mpr h3
    rw [h4] at this
    exact Bool.noConfusion this

/-! ### The pending counter through one iteration -/

theorem same_control_refl (s : State) : same_control s s := ⟨rfl, rfl, rfl, rfl, rfl, rfl, rfl⟩

theorem same_control_trans {s1 s2 s3 : State} (h12 : same_control s1 s2)
    (h23 : same_control s2 s3) : same_control s1 s3 := by
  obtain ⟨a1, a2, a3, a4, a5, a6, a7⟩ := h12
  obtain ⟨b1, b2, b3, b4, b5, b6, b7⟩ := h23
  exact ⟨b1.trans a1, b2.trans a2, b3.trans a3, b4.trans a4, b5.trans a5, b6.trans a6,
    b7.trans a7⟩

theorem reload_block_control (e : SchemaEnv) (s : State) :
    same_control s (reload_block e s) := by
  unfold reload_block
  split_ifs
  · unfold reload_body reload_build
    simp only [parse_schema_snd]
    split_ifs <;> simp [same_control, parse_schema_fst, reload_teardown_eq]
  · exact same_control_refl s

theorem format_row_control (g : GuiInput) (s : State) : same_control s (format_row g s) := by
  unfold format_row
  simp only []
  split_ifs <;> (try split) <;> (try split_ifs) <;> exact same_control_refl _

theorem channel_toggle_control (chan : Nat) (enabled : Bool) (s : State) :
    same_control s (channel_toggle chan enabled s) := by
  unfold channel_toggle
  simp only []
  split_ifs <;> exact same_control_refl _

theorem channel_checkbox_control (g : GuiInput) (s : State) (chan : Nat) :
    same_control s (channel_checkbox g s chan) := by
  unfold channel_checkbox
  simp only []
  by_cases hc : ((g.chan chan).checkbox = true ∧ s.opt_mode.ord > Mode.MODE_PASSIVE.ord)
  · rw [if_pos hc]; exact channel_toggle_control _ _ _
  · rw [if_neg hc]; exact same_control_refl s

theorem channel_popup_control (g : GuiInput) (s : State) (chan : Nat) :
    same_control s (channel_popup g s chan) := by
  unfold channel_popup
  simp only []
  split_ifs <;> exact same_control_refl _

theorem channel_grid_control (g : GuiInput) (s : State) :
    same_control s (channel_grid g s) := by
  unfold channel_grid
  generalize List.range 32 = l
  induction l generalizing s with
  | nil => exact same_control_refl s
  | cons c l ih =>
    rw [List.foldl_cons]
    exact same_control_trans
      (same_control_trans (channel_checkbox_control g s c) (channel_popup_control g _ c))
      (ih _)

theorem run_button_control (g : GuiInput) (s : State) : same_control s (run_button g s) := by
  unfold run_button
  simp only []
  split_ifs <;> exact same_control_refl _

theorem button_row_control (g : GuiInput) (s : State) : same_control s (button_row g s) := by
  unfold button_row
  simp only []
  split_ifs <;> (try split) <;> exact same_control_refl _

theorem search_popup_control (g : GuiInput) (s : State) :
    same_control s (search_popup g s) := by
  unfold search_popup find_action
  simp only []
  split_ifs <;> exact same_control_refl _

/-- After the mode and clock rows the rest of the frame leaves the session
controller's counters alone. -/
theorem gui_control (g : GuiInput) (s : State) (hb : g.nk_begin = true) :
    same_control (clock_row g (mode_row g s)) (gui g s) := by
  unfold gui
  rw [if_pos hb]
  simp only []
  refine same_control_trans ?_ (search_popup_control g _)
  refine same_control_trans ?_ (button_row_control g _)
  refine same_control_trans ?_ (run_button_control g _)
  refine same_control_trans ?_
    (show same_control (channel_grid g (format_row g (clock_row g (mode_row g s)))) _ from
      same_control_refl _)
  exact same_control_trans (format_row_control g _) (channel_grid_control g _)

theorem rows_passes (g : GuiInput) (s : State) :
    (clock_row g (mode_row g s)).passes = s.passes := by
  unfold clock_row mode_row
  simp only []
  split_ifs <;> rfl

theorem rows_pending (g : GuiInput) (s : State) :
    State.reinitialize (clock_row g (mode_row g s)) =
      if g.mode_combo.getD s.opt_mode ≠ s.opt_mode ∨
          ((g.mode_combo.getD s.opt_mode).ord > Mode.MODE_PASSIVE.ord ∧
            (g.cpuclock_edit.commited = true ∨
              (g.cpuclock_edit.deactivated = true ∧
                strtoul (edit_buffer 14 g.cpuclock_edit.text s.cpuclock_str) ≠ s.cpuclock) ∨
              g.bitrate_edit.commited = true ∨
              (g.bitrate_edit.deactivated = true ∧
                strtoul (edit_buffer 14 g.bitrate_edit.text s.bitrate_str) ≠ s.bitrate)))
      then 1 else s.reinitialize := by
  unfold clock_row mode_row
  simp only []
  split_ifs <;> simp_all <;> first | tauto | (exfalso; omega)

theorem gui_passes (g : GuiInput) (s : State) : (gui g s).passes = s.passes := by
  by_cases hb : g.nk_begin = true
  · rw [(gui_control g s hb).2.1, rows_passes]
  · unfold gui; rw [if_neg hb]

theorem gui_pending (g : GuiInput) (s : State) :
    State.reinitialize (gui g s) = if raises_trigger g s then 1 else s.reinitialize := by
  by_cases hb : g.nk_begin = true
  · rw [(gui_control g s hb).1, rows_pending]
    unfold raises_trigger
    simp only [hb, true_and]
  · unfold gui raises_trigger
    rw [if_neg hb]
    simp [hb]

theorem status_switch_passes_mode (s : State) :
    (status_switch s).passes = s.passes ∧ (status_switch s).opt_mode = s.opt_mode := by
  unfold status_switch
  split <;> simp only [emit] <;> (try split_ifs) <;> simp

theorem connected_setup_passes_mode (s : State) :
    (connected_setup s).passes = s.passes ∧ (connected_setup s).opt_mode = s.opt_mode := by
  rw [connected_setup_eq]
  exact ⟨rfl, rfl⟩

theorem probe_sequence_passes_mode (e : ProbeEnv) (s : State) :
    (probe_sequence e s).passes = s.passes ∧ (probe_sequence e s).opt_mode = s.opt_mode := by
  unfold probe_sequence
  simp only []
  split_ifs
  · simp [passive_teardown_eq, halt_target_eq]
  · have h := connected_setup_passes_mode (connect_attach e (halt_target e s)).1
    rw [h.1, h.2]
    simp [connect_attach_fst, halt_target_eq]
  · simp [connect_attach_fst, halt_target_eq]

theorem reconfigure_passes (e : ProbeEnv) (s : State) :
    (reconfigure e s).passes = s.passes + 1 := by
  rw [reconfigure_eq]
  show (status_switch _).passes = _
  rw [(status_switch_passes_mode _).1, emit_passes, (probe_sequence_passes_mode _ _).1]

theorem reconfigure_opt_mode (e : ProbeEnv) (s : State) :
    (reconfigure e s).opt_mode = s.opt_mode := by
  rw [reconfigure_eq]
  show (status_switch _).opt_mode = _
  rw [(status_switch_passes_mode _).2, emit_opt_mode, (probe_sequence_passes_mode _ _).2]

theorem reconfigure_pending (e : ProbeEnv) (s : State) :
    State.reinitialize (reconfigure e s) = 0 := rfl

theorem reinit_block_passes (e : ProbeEnv) (s : State) :
    (reinit_block e s).passes = s.passes + (if s.reinitialize = 1 then 1 else 0) := by
  unfold reinit_block
  split_ifs
  · exact reconfigure_passes e s
  · rfl
  · rfl

theorem reinit_block_opt_mode (e : ProbeEnv) (s : State) :
    (reinit_block e s).opt_mode = s.opt_mode := by
  unfold reinit_block
  split_ifs
  · exact reconfigure_opt_mode e s
  · rfl
  · rfl

theorem reinit_block_pending (e : ProbeEnv) (s : State) :
    State.reinitialize (reinit_block e s) =
      if s.reinitialize = 1 then 0
      else if s.reinitialize > 0 then s.reinitialize - 1 else s.reinitialize := by
  unfold reinit_block
  split_ifs
  · rfl
  · rfl
  · rfl

theorem iteration_passes (pe : ProbeEnv) (se : SchemaEnv) (g : GuiInput) (s : State) :
    (iteration pe se g s).passes = s.passes + (if s.reinitialize = 1 then 1 else 0) := by
  unfold iteration
  rw [gui_passes, (reload_block_control se _).2.1, reinit_block_passes]

theorem iteration_pending (pe : ProbeEnv) (se : SchemaEnv) (g : GuiInput) (s : State) :
    State.reinitialize (iteration pe se g s) =
      if raises_trigger g (reload_block se (reinit_block pe s)) then 1
      else if s.reinitialize = 1 then 0
      else if s.reinitialize > 0 then s.reinitialize - 1 else s.reinitialize := by
  unfold iteration
  rw [gui_pending, (reload_block_control se _).1, reinit_block_pending]

theorem quiet_run_passes (rest : List (ProbeEnv × SchemaEnv × GuiInput)) (s : State)
    (h0 : s.reinitialize = 0) (hq : quiet_run s rest) :
    (run s rest).passes = s.passes ∧ State.reinitialize (run s rest) = 0 := by
  induction rest generalizing s with
  | nil => exact ⟨rfl, h0⟩
  | cons x rest ih =>
    obtain ⟨pe, se, g⟩ := x
    obtain ⟨hq1, hq2⟩ := hq
    have hr : State.reinitialize (iteration pe se g s) = 0 := by
      rw [iteration_pending, if_neg hq1, h0]; rfl
    have hp : (iteration pe se g s).passes = s.passes := by
      rw [iteration_passes, h0]; rfl
    have := ih (iteration pe se g s) hr hq2
    exact ⟨this.1.trans hp, this.2⟩

/-! ## C2: one deferred reconfiguration pass per mode change -/

/-- C2: when the operator changes the mode during iteration k, the
reconfiguration sequence this change triggers is not executed during iteration
k: the iteration executes as many passes as it would have without the change,
namely one if a pass was pending when the iteration began (it runs at the head
of the iteration, before the change) and none otherwise; the counter is 1 when
iteration k ends, exactly one pass is executed in iteration k+1 and leaves the
counter 0, and when no trigger is raised in iteration k+1 or later the counter
stays 0 and no pass is executed in any later iteration.  From start-up the
counter is 2, the first iteration executes no pass and the second executes
exactly one. -/
theorem C2_mode_change_defers_one_pass (pe pe1 pa pb : ProbeEnv) (se se1 sa sb : SchemaEnv)
    (g g1 ga gb : GuiInput) (s : State) (rest : List (ProbeEnv × SchemaEnv × GuiInput))
    (ini : Ini) (reg0 : Registry) (ts : TraceStat) (drv : CStr)
    (hchg : mode_changed g s) :
    (iteration pe se g s).passes = s.passes + (if s.reinitialize = 1 then 1 else 0) ∧
    State.reinitialize (iteration pe se g s) = 1 ∧
    (iteration pe1 se1 g1 (iteration pe se g s)).passes = (iteration pe se g s).passes + 1 ∧
    State.reinitialize (reinit_block pe1 (iteration pe se g s)) = 0 ∧
    (¬ raises_trigger g1 (reload_block se1 (reinit_block pe1 (iteration pe se g s))) →
      quiet_run (iteration pe1 se1 g1 (iteration pe se g s)) rest →
      (run (iteration pe1 se1 g1 (iteration pe se g s)) rest).passes =
          (iteration pe se g s).passes + 1 ∧
        State.reinitialize (run (iteration pe1 se1 g1 (iteration pe se g s)) rest) = 0) ∧
    State.reinitialize (startup ini reg0 ts drv) = 2 ∧
    (iteration pa sa ga (startup ini reg0 ts drv)).passes = 0 ∧
    (iteration pb sb gb (iteration pa sa ga (startup ini reg0 ts drv))).passes = 1 ∧
    (iteration pe se g s).passes = (iteration pe se { g with mode_combo := none } s).passes ∧
    (s.reinitialize ≠ 1 → (iteration pe se g s).passes = s.passes) := by
  have hk : State.reinitialize (iteration pe se g s) = 1 := by
    rw [iteration_pending, if_pos]
    refine ⟨hchg.1, Or.inl ?_⟩
    rw [(reload_block_control se _).2.2.1, reinit_block_opt_mode]
    exact hchg.2
  have hk1 : (iteration pe1 se1 g1 (iteration pe se g s)).passes =
      (iteration pe se g s).passes + 1 := by
    rw [iteration_passes pe1, hk]; rfl
  have hstart : State.reinitialize (iteration pa sa ga (startup ini reg0 ts drv)) = 1 := by
    rw [iteration_pending]
    have h2 : State.reinitialize (startup ini reg0 ts drv) = 2 := rfl
    rw [h2]
    split_ifs <;> first | rfl | omega
  refine ⟨iteration_passes pe se g s, hk, hk1, ?_, ?_, rfl, ?_, ?_, ?_, ?_⟩
  · rw [reinit_block_pending, if_pos hk]
  · intro hq1 hq
    have h0 : State.reinitialize (iteration pe1 se1 g1 (iteration pe se g s)) = 0 := by
      rw [iteration_pending, if_neg hq1, hk]; rfl
    have := quiet_run_passes rest _ h0 hq
    exact ⟨this.1.trans hk1, this.2⟩
  · rw [iteration_passes]; rfl
  · rw [iteration_passes, hstart, iteration_passes]; rfl
  · rw [iteration_passes, iteration_passes]
  · intro hne
    rw [iteration_passes, if_neg hne]
    rfl

set_option maxRecDepth 100000 in
/-- Witness of C2: the mode is changed to Async in the first iteration after
start-up; the counter is 1 when that iteration ends and the next iteration
executes exactly one pass. -/
theorem C2_mode_change_witness :
    mode_changed g_async s_start ∧
      State.reinitialize (iteration pe_attached se_none g_async s_start) = 1 ∧
      (iteration pe_attached se_none g_idle (iteration pe_attached se_none g_async s_start)).passes =
        (iteration pe_attached se_none g_async s_start).passes + 1 :=
  ⟨by decide,
    (C2_mode_change_defers_one_pass pe_attached pe_attached pe_attached pe_attached se_none
      se_none se_none se_none g_async g_idle g_idle g_idle s_start [] ini_empty reg_blank
      .TRACESTAT_OK [] (by decide)).2.1,
    (C2_mode_change_defers_one_pass pe_attached pe_attached pe_attached pe_attached se_none
      se_none se_none se_none g_async g_idle g_idle g_idle s_start [] ini_empty reg_blank
      .TRACESTAT_OK [] (by decide)).2.2.1⟩

/-! ## C3: outcome of a pass whose connect or attach failed -/

theorem status_switch_ok_active (s : State) (hts : s.trace_status = .TRACESTAT_OK)
    (hmode : s.opt_mode ≠ .MODE_PASSIVE) :
    status_switch s =
      emit (.tracelog_statusmsg .TRACESTATMSG_BMP (some (connected_msg s.mcu_driver))
        BMPSTAT_SUCCESS) { s with recent_statuscode := BMPSTAT_SUCCESS } := by
  unfold status_switch connected_msg
  rw [hts]
  simp only []
  rw [if_neg hmode, if_pos (by decide)]

/-- C3, the behaviour of the code: in a pass in a mode other than Passive in
which connect or attach fails while the trace interface is available, the
status code recorded after the pass is `BMPSTAT_SUCCESS`, which is not
negative, and the last call of the pass posts "Connected [...]" on the Link
lane, after the messages of the failed connect or attach. -/
theorem C3_failed_pass_reports_connected (e : ProbeEnv) (s : State)
    (hmode : s.opt_mode ≠ .MODE_PASSIVE)
    (hf : e.bmp_connect = false ∨ e.bmp_attach = false)
    (hts : s.trace_status = .TRACESTAT_OK) :
    (reconfigure e s).recent_statuscode = BMPSTAT_SUCCESS ∧
    ¬ (reconfigure e s).recent_statuscode < 0 ∧
    (reconfigure e s).log =
      s.log ++ (if e.rs232_isopen then [Call.bmp_break] else []) ++ connect_attach_log e ++
        [Call.tracestring_clear,
         Call.tracelog_statusmsg .TRACESTATMSG_BMP
           (some (connected_msg (if e.bmp_connect then e.attach_driver else s.mcu_driver)))
           BMPSTAT_SUCCESS] := by
  have hm : ({ s with passes := s.passes + 1 } : State).opt_mode ≠ .MODE_PASSIVE := hmode
  have hp := probe_sequence_failure_eq e { s with passes := s.passes + 1 } hm hf
  have hs : reconfigure e s =
      { emit (.tracelog_statusmsg .TRACESTATMSG_BMP
            (some (connected_msg (if e.bmp_connect then e.attach_driver else s.mcu_driver)))
            BMPSTAT_SUCCESS)
          { emit .tracestring_clear (probe_sequence e { s with passes := s.passes + 1 }) with
            recent_statuscode := BMPSTAT_SUCCESS }
        with reinitialize := 0 } := by
    rw [reconfigure_eq, status_switch_ok_active]
    · rw [hp]; simp [connect_attach_fst, halt_target_eq]
    · rw [hp]; simpa [connect_attach_fst, halt_target_eq] using hts
    · rw [hp]; simpa [connect_attach_fst, halt_target_eq] using hmode
  rw [hs, hp]
  refine ⟨rfl, ?_, ?_⟩
  · show ¬ BMPSTAT_SUCCESS < 0
    decide
  · simp [connect_attach_fst, halt_target_eq]

set_option maxRecDepth 100000 in
/-- Witness of C3 at the failing input: the session is connected to "STM32F1",
a pass is pending, and the probe has become unreachable; the pass ends with
status code 1 and the message "Connected [STM32F1]". -/
theorem C3_failed_pass_witness :
    s_connected.opt_mode ≠ .MODE_PASSIVE ∧
      (pe_unreachable.bmp_connect = false ∨ pe_unreachable.bmp_attach = false) ∧
      s_connected.trace_status = .TRACESTAT_OK ∧
      (reconfigure pe_unreachable s_connected).recent_statuscode = 1 ∧
      (reconfigure pe_unreachable s_connected).log.getLast? =
        some (Call.tracelog_statusmsg .TRACESTATMSG_BMP (some "Connected [STM32F1]".toList) 1) := by
  have h := C3_failed_pass_reports_connected pe_unreachable s_connected (by decide)
    (Or.inl rfl) (by decide)
  refine ⟨by decide, Or.inl rfl, by decide, h.1, ?_⟩
  rw [h.2.2, List.getLast?_append]
  have hd : s_connected.mcu_driver = "STM32F1".toList := by decide
  simp [pe_unreachable, hd, connected_msg, BMPSTAT_SUCCESS]

/-! ## C4: the two status lanes -/

/-- C4 (amended): on the Decode lane (`ctf_error_notify`) a post with the reset
sentinel clears the flag and displays nothing, whatever its message pointer; a
post with any other code while the flag is set displays nothing and leaves the
state as it was; a post with any other code and a message text while the flag
is clear displays the message once and sets the flag; hence a reset followed
by a new message text displays it.  A post with another code than the sentinel
and a null message while the flag is clear has no defined result.  On the Link
lane (`bmp_callback`) there is no flag: every post records its code in
`recent_statuscode` and is passed on to `tracelog_statusmsg`.  Neither function
touches the state of the other lane. -/
theorem C4_status_lanes (code linenr : Int) (message : Option CStr) (text : CStr)
    (bcode : Int) (bmessage : Option CStr) (s : State) :
    (code = CTFERR_NONE →
      ∃ s1 : State, ctf_error_notify code linenr message s = some (s1, 0) ∧
        s1.ctf_statusset = false ∧ s1.log = s.log ++ [Call.ctf_error_notify code linenr]) ∧
    (code ≠ CTFERR_NONE → s.ctf_statusset = true →
      ctf_error_notify code linenr message s = some (emit (.ctf_error_notify code linenr) s, 0)) ∧
    (code ≠ CTFERR_NONE → s.ctf_statusset = false →
      ∃ s1 : State, ctf_error_notify code linenr (some text) s = some (s1, 0) ∧
        s1.ctf_statusset = true ∧
        s1.log =
          s.log ++ [Call.ctf_error_notify code linenr,
            Call.tracelog_statusmsg .TRACESTATMSG_CTF (some (ctf_message linenr text)) 0]) ∧
    (code ≠ CTFERR_NONE → s.ctf_statusset = false →
      ctf_error_notify code linenr none s = none) ∧
    (code ≠ CTFERR_NONE →
      ∃ s1 s2 : State, ctf_error_notify CTFERR_NONE 0 none s = some (s1, 0) ∧
        ctf_error_notify code linenr (some text) s1 = some (s2, 0) ∧
        s2.log =
          s.log ++ [Call.ctf_error_notify CTFERR_NONE 0, Call.ctf_error_notify code linenr,
            Call.tracelog_statusmsg .TRACESTATMSG_CTF (some (ctf_message linenr text)) 0]) ∧
    (∀ r, ctf_error_notify code linenr message s = some r →
      r.1.recent_statuscode = s.recent_statuscode) ∧
    (bmp_callback bcode bmessage s).1.ctf_statusset = s.ctf_statusset ∧
    (bmp_callback bcode bmessage s).1.recent_statuscode = bcode ∧
    (bmp_callback bcode bmessage s).1.log =
      s.log ++ [Call.tracelog_statusmsg .TRACESTATMSG_BMP bmessage bcode] ∧
    (bmp_callback bcode bmessage s).2 = decide (bcode ≥ 0) := by
  refine ⟨?_, ?_, ?_, ?_, ?_, ?_, rfl, rfl, rfl, rfl⟩
  · intro hc
    rw [hc, ctf_error_notify_reset]
    exact ⟨_, rfl, rfl, rfl⟩
  · intro hc hs
    exact ctf_error_notify_sticky code linenr message s hc hs
  · intro hc hs
    rw [ctf_error_notify_text]
    refine ⟨_, rfl, ?_, ?_⟩
    · simp [hc]
    · simp [hc, hs, notify_log]
  · intro hc hs
    exact ctf_error_notify_null code linenr s hc hs
  · intro hc
    refine ⟨_, _, ctf_error_notify_reset 0 none s, ctf_error_notify_text code linenr text _, ?_⟩
    simp [hc, notify_log]
  · intro r hr
    cases message with
    | some m =>
      rw [ctf_error_notify_text] at hr
      rw [← Option.some.inj hr]
    | none =>
      by_cases hc : code = CTFERR_NONE
      · rw [hc, ctf_error_notify_reset] at hr
        rw [← Option.some.inj hr]
      · cases hs : s.ctf_statusset
        · rw [ctf_error_notify_null code linenr s hc hs] at hr
          exact Option.noConfusion hr
        · rw [ctf_error_notify_sticky code linenr none s hc hs] at hr
          rw [← Option.some.inj hr]
          rfl

set_option maxRecDepth 100000 in
/-- C4 as stated fails on the Link lane: two posts through `bmp_callback` with
error codes and no reset between them are both passed on to
`tracelog_statusmsg`, and the second changes the recorded status code. -/
theorem C4_counterexample :
    (bmp_callback (-2) (some "Attach failed".toList)
        (bmp_callback (-1) (some "No probe".toList) s_start).1).1.log =
      s_start.log ++
        [Call.tracelog_statusmsg .TRACESTATMSG_BMP (some "No probe".toList) (-1),
         Call.tracelog_statusmsg .TRACESTATMSG_BMP (some "Attach failed".toList) (-2)] ∧
    (bmp_callback (-1) (some "No probe".toList) s_start).1.recent_statuscode = -1 ∧
    (bmp_callback (-2) (some "Attach failed".toList)
        (bmp_callback (-1) (some "No probe".toList) s_start).1).1.recent_statuscode = -2 := by
  refine ⟨?_, rfl, rfl⟩
  simp [bmp_callback, emit]

/-! ## C5: a search without a new match -/

/-- C5 (amended): for every non-empty search text and every value of the match
cursor, when `tracestring_find` reports no new match (it returns the current
cursor) the Find action resets the match cursor to -1, "no match", and yields
the "not found" result `find_popup == 2`; the cursor keeps its value only when
it was -1 already, and no other variable changes. -/
theorem C5_find_without_match_resets_cursor (line : Int) (s : State)
    (htext : s.findtext.length > 0) (hline : line = s.cur_match_line) :
    (find_action line s).cur_match_line = -1 ∧
    (find_action line s).find_popup = 2 ∧
    ((find_action line s).cur_match_line = s.cur_match_line ↔ s.cur_match_line = -1) ∧
    find_action line s = { s with cur_match_line := -1, find_popup := 2 } := by
  have h : find_action line s = { s with cur_match_line := -1, find_popup := 2 } := by
    unfold find_action
    rw [if_pos htext, if_neg (by simpa using hline)]
  rw [h]
  exact ⟨rfl, rfl, ⟨fun h1 => h1.symm, fun h1 => h1.symm⟩, rfl⟩

/-- Witness of C5: the search text is "abc", the cursor is on line 3 and the
search returns line 3. -/
theorem C5_find_without_match_witness :
    s_match3.findtext.length > 0 ∧ (3 : Int) = s_match3.cur_match_line ∧
      (find_action 3 s_match3).cur_match_line = -1 ∧ (find_action 3 s_match3).find_popup = 2 :=
  ⟨by decide, rfl,
    (C5_find_without_match_resets_cursor 3 s_match3 (by decide) rfl).1,
    (C5_find_without_match_resets_cursor 3 s_match3 (by decide) rfl).2.1⟩

/-- C5 as stated fails: with the cursor on line 3 and a search that finds no new
match, the cursor after the Find action is -1, not 3. -/
theorem C5_counterexample :
    s_match3.findtext.length > 0 ∧ s_match3.cur_match_line = 3 ∧
      (find_action s_match3.cur_match_line s_match3).find_popup = 2 ∧
      (find_action s_match3.cur_match_line s_match3).cur_match_line ≠ s_match3.cur_match_line := by
  refine ⟨by decide, rfl, by decide, by decide⟩

/-! ### The successful pass in closed form -/

theorem status_switch_eq (s : State) :
    status_switch s =
      { s with
        recent_statuscode := status_code s.trace_status s.recent_statuscode
        log := s.log ++ status_calls s.trace_status s.opt_mode s.mcu_driver } := by
  unfold status_switch status_code status_calls connected_msg
  cases s with
  | mk channels channelmask opt_mode opt_format cpuclock_str bitrate_str cpuclock bitrate
      txtTSDLfile mcu_driver valstr findtext cur_chan_edit trace_status trace_running
      reinit reload_format cur_match_line find_popup recent_statuscode ctf_statusset log passes =>
    cases trace_status <;> simp [emit, BMPSTAT_SUCCESS]
    split_ifs <;> simp

theorem reconfigure_success_eq (e : ProbeEnv) (s : State)
    (hmode : s.opt_mode ≠ .MODE_PASSIVE) (hc : e.bmp_connect = true) (ha : e.bmp_attach = true) :
    reconfigure e s =
      { s with
        passes := s.passes + 1
        reinitialize := 0
        mcu_driver := e.attach_driver
        cpuclock := effective_clock s.cpuclock_str
        bitrate := effective_bitrate s.bitrate_str
        channelmask := channelmask_loop s.channels
        recent_statuscode :=
          status_code s.trace_status
            ((((e.connect_posts ++ e.attach_posts).map Prod.fst).getLast?).getD s.recent_statuscode)
        log := s.log ++ (if e.rs232_isopen then [Call.bmp_break] else []) ++
          connect_attach_log e ++ setup_calls s e.attach_driver ++ [Call.tracestring_clear] ++
          status_calls s.trace_status s.opt_mode e.attach_driver } := by
  have hm : ({ s with passes := s.passes + 1 } : State).opt_mode ≠ .MODE_PASSIVE := hmode
  rw [reconfigure_eq, probe_sequence_success_eq e _ hm hc ha, status_switch_eq,
    connected_setup_eq, connect_attach_fst, halt_target_eq]
  simp [hc, setup_calls]

/-! ## C6: the bit rate handed to `bmp_enabletrace` -/

/-- C6, the behaviour of the code: in every pass in which connect and attach
succeed, `bmp_enabletrace` is called before the bit-rate text is parsed; its
argument is 0 in Manchester mode and, in Async mode, the value `bitrate` had
when the pass began (0 in the first pass, the rate of the previous pass after
an edit), while the rate parsed from the text is stored in `bitrate` only
afterwards. -/
theorem C6_enabletrace_gets_bitrate_of_previous_pass (e : ProbeEnv) (s : State)
    (hmode : s.opt_mode ≠ .MODE_PASSIVE) (hc : e.bmp_connect = true)
    (ha : e.bmp_attach = true) :
    (reconfigure e s).log =
      s.log ++ (if e.rs232_isopen then [Call.bmp_break] else []) ++ connect_attach_log e ++
        [Call.bmp_enabletrace (if s.opt_mode = .MODE_ASYNC then s.bitrate else 0),
         Call.bmp_runscript "swo-device" e.attach_driver [],
         Call.bmp_runscript "swo-generic" e.attach_driver
           [s.opt_mode.ord,
            prescaler (effective_clock s.cpuclock_str) (effective_bitrate s.bitrate_str)],
         Call.bmp_runscript "swo-channels" e.attach_driver
           [channelmask_loop s.channels,
            prescaler (effective_clock s.cpuclock_str) (effective_bitrate s.bitrate_str)],
         Call.bmp_restart, Call.tracestring_clear] ++
        status_calls s.trace_status s.opt_mode e.attach_driver ∧
    (reconfigure e s).bitrate = effective_bitrate s.bitrate_str ∧
    (s.opt_mode = .MODE_MANCHESTER →
      (if s.opt_mode = .MODE_ASYNC then s.bitrate else 0) = 0) := by
  rw [reconfigure_success_eq e s hmode hc ha]
  refine ⟨?_, rfl, ?_⟩
  · simp [setup_calls]
  · intro h
    rw [h]
    rfl

set_option maxRecDepth 100000 in
/-- Witness of C6 at the failing input: the first pass of a session in Async
mode with the bit-rate text "100000" calls `bmp_enabletrace(0)`. -/
theorem C6_enabletrace_witness :
    s_async_first.opt_mode = .MODE_ASYNC ∧ s_async_first.bitrate_str = "100000".toList ∧
      effective_bitrate s_async_first.bitrate_str = 100000 ∧
      (reconfigure pe_attached s_async_first).log =
        s_async_first.log ++
          [Call.bmp_connect, Call.bmp_attach 2, Call.bmp_enabletrace 0,
           Call.bmp_runscript "swo-device" "STM32F1".toList [],
           Call.bmp_runscript "swo-generic" "STM32F1".toList [2, 479],
           Call.bmp_runscript "swo-channels" "STM32F1".toList [1, 479],
           Call.bmp_restart, Call.tracestring_clear,
           Call.tracelog_statusmsg .TRACESTATMSG_BMP (some "Connected [STM32F1]".toList) 1] := by
  refine ⟨by decide, by decide, by decide, ?_⟩
  rw [(C6_enabletrace_gets_bitrate_of_previous_pass pe_attached s_async_first (by decide) rfl
    rfl).1]
  decide

/-! ## C7: commit of a channel name -/

theorem set_getElem_same {α : Type} (l : List α) (i : Nat) (h : i < l.length) :
    l.set i l[i] = l := by
  apply List.ext_getElem
  · simp
  · intro n h1 h2
    rw [List.getElem_set]
    split_ifs with hin
    · subst hin; rfl
    · rfl

theorem space_step_map (l : CStr) (h : l.indexOf ' ' < l.length) :
    (l.set (l.indexOf ' ') '-').map dash = l.map dash := by
  rw [List.map_set]
  have hd : dash '-' = '-' := by decide
  have hb : l.indexOf ' ' < (l.map dash).length := by simpa using h
  have hi : (l.map dash)[l.indexOf ' '] = '-' := by
    rw [List.getElem_map, List.getElem_indexOf h]
    decide
  rw [hd]
  conv_lhs => rw [← hi]
  exact set_getElem_same _ _ _

theorem space_step_count (l : CStr) (h : l.indexOf ' ' < l.length) :
    (l.set (l.indexOf ' ') '-').count ' ' + 1 = l.count ' ' := by
  rw [List.count_set _ _ _ _ h, List.getElem_indexOf h]
  have hpos : 0 < l.count ' ' := List.count_pos_iff.mpr (List.indexOf_lt_length.mp h)
  have h1 : ((' ' : Char) == ' ') = true := by decide
  have h2 : (('-' : Char) == ' ') = false := by decide
  simp only [h1, h2, if_true]
  simp
  omega

theorem map_dash_of_no_space (l : CStr) (h : ¬ l.indexOf ' ' < l.length) : l.map dash = l := by
  have hn : ' ' ∉ l := fun hm => h (List.indexOf_lt_length.mpr hm)
  conv_rhs => rw [← List.map_id l]
  apply List.map_congr_left
  intro c hc
  unfold dash
  rw [if_neg]
  · rfl
  · intro hcs
    exact hn (hcs ▸ hc)

theorem space_loop_eq (fuel : Nat) (l : CStr) (h : l.count ' ' < fuel) :
    space_loop fuel l = some (l.map dash) := by
  induction fuel generalizing l with
  | zero => omega
  | succ k ih =>
    unfold space_loop
    simp only []
    split_ifs with hi
    · rw [ih _ (by have := space_step_count l hi; omega), space_step_map l hi]
    · rw [map_dash_of_no_space l hi]

theorem commit_name_eq (valstr : CStr) (h : valstr ≠ []) :
    commit_name valstr = some (valstr.map dash) := by
  unfold commit_name
  have hl : ¬ valstr.length = 0 := by
    intro h0
    exact h (List.length_eq_zero.mp h0)
  rw [if_neg hl, space_loop_eq _ _ (Nat.lt_succ_of_le (List.count_le_length _ _))]
  rfl

theorem dash_ne_space (c : Char) : dash c ≠ ' ' := by
  unfold dash
  split_ifs with h
  · decide
  · exact h

/-- C7: committing an empty staged text makes the channel's name absent;
committing any other text ends the replacement loop (within one more step than
the text has characters, and for any later bound) and stores a name of the
same length, without a space, equal to the staged text at every position
except that each space is replaced by a hyphen; the closing of the popup of
the channel under edit writes that name to the registry; "left right" is
stored as "left-right". -/
theorem C7_commit_name (valstr : CStr) (g : GuiInput) (s : State) (chan : Nat) :
    (valstr = [] → commit_name valstr = none) ∧
    (valstr ≠ [] →
      ∃ name : CStr, commit_name valstr = some name ∧
        (∀ fuel, valstr.length < fuel → space_loop fuel valstr = some name) ∧
        name.length = valstr.length ∧ ' ' ∉ name ∧
        ∀ (i : Nat) (h1 : i < valstr.length) (h2 : i < name.length),
          name[i] = if valstr[i] = ' ' then '-' else valstr[i]) ∧
    ((g.chan chan).popup = false → s.cur_chan_edit = chan → chan < NUM_CHANNELS →
      ((channel_popup g s chan).channels chan).name = commit_name s.valstr ∧
      (channel_popup g s chan).cur_chan_edit = -1) ∧
    commit_name "left right".toList = some "left-right".toList ∧
    commit_name "".toList = none := by
  refine ⟨?_, ?_, ?_, ?_, rfl⟩
  · intro h
    rw [h]
    rfl
  · intro h
    refine ⟨valstr.map dash, commit_name_eq valstr h, ?_, by simp, ?_, ?_⟩
    · intro fuel hf
      exact space_loop_eq fuel valstr (lt_of_le_of_lt (List.count_le_length _ _) hf)
    · intro hm
      obtain ⟨c, _, hc⟩ := List.mem_map.mp hm
      exact dash_ne_space c hc
    · intro i h1 h2
      rw [List.getElem_map]
      rfl
  · intro hp he hc
    unfold channel_popup
    simp [hp, he, channel_setname, hc]
  · rw [commit_name_eq _ (by decide)]
    decide

/-! ## C8 and C9: the format reload -/

theorem reload_body_log (e : SchemaEnv) (s : State) :
    (reload_body e s).log = s.log ++ teardown_calls ++ reload_tail e s := by
  unfold reload_body reload_tail
  show (reload_build e (reload_teardown s)).log = _
  rw [reload_build_log, reload_teardown_eq]
  have hp : parse_attempted e
      { s with cur_match_line := -1, ctf_statusset := false, log := s.log ++ teardown_calls } ↔
      parse_attempted e s := Iff.rfl
  simp only [hp]

theorem notes_log_no_enable (ns : List CtfNote) (set : Bool) :
    (notes_log ns set).filterMap enablectf_arg = [] := by
  rw [List.filterMap_eq_nil_iff]
  intro c hc
  have h := notes_log_decode ns set c hc
  cases c <;> simp_all [is_decode_note, enablectf_arg]

theorem parse_log_no_enable (e : SchemaEnv) (path : CStr) (set : Bool) :
    (parse_log e path set).filterMap enablectf_arg = [] := by
  unfold parse_log
  split_ifs <;>
    simp [List.filterMap_append, List.filterMap_cons, notes_log_no_enable, enablectf_arg]

theorem reload_tail_enable (e : SchemaEnv) (s : State) :
    (reload_tail e s).filterMap enablectf_arg = if structured_ok e s then [1] else [] := by
  unfold reload_tail structured_ok parse_attempted
  split_ifs <;>
    simp_all [List.filterMap_append, parse_log_no_enable, enablectf_arg]

/-- C8: the calls of a format reload are such that the last call of
`trace_enablectf` has argument 1 exactly when the format is Structured, the
schema path is not empty and accessible, and `ctf_parse_init` and
`ctf_parse_run` both succeed; in every other case the last such call has
argument 0, and when the parser was called and failed the reload ends with
`ctf_parse_cleanup`. -/
theorem C8_structured_mode_iff_parse_succeeds (e : SchemaEnv) (s : State) :
    ∃ seg : List Call, (reload_body e s).log = s.log ++ seg ∧
      ((seg.filterMap enablectf_arg).getLast? = some 1 ↔ structured_ok e s) ∧
      (¬ structured_ok e s → (seg.filterMap enablectf_arg).getLast? = some 0) ∧
      (parse_attempted e s → ¬ (e.ctf_parse_init = true ∧ e.ctf_parse_run = true) →
        seg.getLast? = some Call.ctf_parse_cleanup) := by
  refine ⟨teardown_calls ++ reload_tail e s, ?_, ?_, ?_, ?_⟩
  · rw [reload_body_log, List.append_assoc]
  · rw [List.filterMap_append, reload_tail_enable]
    by_cases h : structured_ok e s
    · simp [h, teardown_calls, enablectf_arg]
    · simp [h, teardown_calls, enablectf_arg]
  · intro h
    rw [List.filterMap_append, reload_tail_enable]
    simp [h, teardown_calls, enablectf_arg]
  · intro ha hf
    unfold reload_tail
    rw [if_pos ha, if_neg hf, ← List.append_assoc, List.getLast?_append]
    rfl

/-- C9: whatever the format, the schema path and the outcome of parsing, the
calls of a format reload begin with schema-parser cleanup, decoder cleanup,
trace-text buffer clear, the store of -1 to the match cursor, structured-decode
disable, the clearing of the Decode status and `ctf_error_notify(CTFERR_NONE)`,
in this order; none of these is a call of `ctf_parse_init` or `ctf_parse_run`;
after them the cursor is -1 and the sticky flag is clear, and the cursor is
still -1 when the reload ends. -/
theorem C9_reload_begins_with_teardown (e : SchemaEnv) (s : State) :
    ∃ rest : List Call,
      (reload_body e s).log =
        s.log ++
          [Call.ctf_parse_cleanup, Call.ctf_decode_cleanup, Call.tracestring_clear,
           Call.store_cur_match_line (-1), Call.trace_enablectf 0,
           Call.tracelog_statusmsg .TRACESTATMSG_CTF none 0,
           Call.ctf_error_notify CTFERR_NONE 0] ++ rest ∧
      (∀ c ∈ [Call.ctf_parse_cleanup, Call.ctf_decode_cleanup, Call.tracestring_clear,
           Call.store_cur_match_line (-1), Call.trace_enablectf 0,
           Call.tracelog_statusmsg .TRACESTATMSG_CTF none 0,
           Call.ctf_error_notify CTFERR_NONE 0], is_parse_call c = false) ∧
      (reload_teardown s).log ++ rest = (reload_body e s).log ∧
      (reload_teardown s).cur_match_line = -1 ∧
      (reload_teardown s).ctf_statusset = false ∧
      (reload_body e s).cur_match_line = -1 := by
  refine ⟨reload_tail e s, reload_body_log e s, by decide, ?_, ?_, ?_, ?_⟩
  · rw [reload_body_log, reload_teardown_eq]
  · rw [reload_teardown_eq]
  · rw [reload_teardown_eq]
  · show (reload_build e (reload_teardown s)).cur_match_line = -1
    rw [reload_build_cur_match_line, reload_teardown_eq]

/-! ## C10: effective clock, effective bit rate and prescaler -/

theorem toULong_lt (x : Int) : toULong x < 18446744073709551616 := by
  unfold toULong
  have h1 : 0 ≤ x % 18446744073709551616 := Int.emod_nonneg _ (by decide)
  have h2 : x % 18446744073709551616 < 18446744073709551616 := Int.emod_lt_of_pos _ (by decide)
  omega

theorem toULong_of_nonneg (x : Int) (h0 : 0 ≤ x) (h1 : x < 18446744073709551616) :
    toULong x = x.toNat := by
  unfold toULong
  rw [Int.emod_eq_of_lt h0 h1]

theorem strtol_of_no_digit (txt : CStr) (h : leading_digits txt = []) : strtol txt = 0 := by
  unfold strtol
  rw [h]
  simp [digitsValue, LONG_MIN, LONG_MAX]

theorem effective_clock_bounds (txt : CStr) :
    0 < effective_clock txt ∧ effective_clock txt < 18446744073709551616 := by
  unfold effective_clock
  split_ifs with h
  · exact ⟨by decide, by decide⟩
  · exact ⟨Nat.pos_of_ne_zero h, toULong_lt _⟩

theorem effective_bitrate_bounds (txt : CStr) :
    0 < effective_bitrate txt ∧ effective_bitrate txt < 18446744073709551616 := by
  unfold effective_bitrate
  split_ifs with h
  · exact ⟨by decide, by decide⟩
  · exact ⟨Nat.pos_of_ne_zero h, toULong_lt _⟩

theorem toULong_eq_zero_iff_strtol (txt : CStr) : toULong (strtol txt) = 0 ↔ strtol txt = 0 := by
  have hb : LONG_MIN ≤ strtol txt ∧ strtol txt ≤ LONG_MAX := by
    unfold strtol
    simp only []
    split_ifs <;> constructor <;> simp only [LONG_MIN, LONG_MAX] at * <;> omega
  unfold toULong
  simp only [LONG_MIN, LONG_MAX] at hb
  constructor
  · intro h
    omega
  · intro h
    rw [h]
    rfl

theorem prescaler_of_le (c r : Nat) (hr : 0 < r) (hle : r ≤ c) (hc : c < 18446744073709551616) :
    prescaler c r = c / r - 1 := by
  unfold prescaler
  have h1 : 1 ≤ c / r := (Nat.one_le_div_iff hr).mpr hle
  have h2 : c / r ≤ c := Nat.div_le_self c r
  rw [toULong_of_nonneg _ (by omega) (by omega)]
  omega

theorem prescaler_of_lt (c r : Nat) (hlt : c < r) : prescaler c r = 18446744073709551615 := by
  unfold prescaler
  rw [Nat.div_eq_of_lt hlt]
  rfl

/-- C10 (amended): in a pass that reaches the generic setup script, the
effective clock is the value `strtol` parses from the clock text, converted to
`unsigned long`, or 48000000 when that value is 0, which includes a text
without digits; the effective bit rate is obtained likewise with 100000; the
script "swo-generic" receives the mode ordinal and `clock / rate - 1` computed
in `unsigned long`: this is `clock / rate - 1` exactly whenever the effective
bit rate does not exceed the effective clock, and it wraps to 2^64 - 1 when the
clock is below the bit rate.  For 48000000 and 100000 it is 479. -/
theorem C10_prescaler_of_effective_rates (e : ProbeEnv) (s : State)
    (hmode : s.opt_mode ≠ .MODE_PASSIVE) (hc : e.bmp_connect = true)
    (ha : e.bmp_attach = true) :
    (∃ before after : List Call,
      (reconfigure e s).log =
        s.log ++ before ++
          [Call.bmp_runscript "swo-generic" e.attach_driver
            [s.opt_mode.ord,
             prescaler (effective_clock s.cpuclock_str) (effective_bitrate s.bitrate_str)]] ++
          after) ∧
    (reconfigure e s).cpuclock = effective_clock s.cpuclock_str ∧
    (reconfigure e s).bitrate = effective_bitrate s.bitrate_str ∧
    effective_clock s.cpuclock_str =
      (if strtol s.cpuclock_str = 0 then 48000000 else toULong (strtol s.cpuclock_str)) ∧
    effective_bitrate s.bitrate_str =
      (if strtol s.bitrate_str = 0 then 100000 else toULong (strtol s.bitrate_str)) ∧
    (leading_digits s.cpuclock_str = [] → effective_clock s.cpuclock_str = 48000000) ∧
    (leading_digits s.bitrate_str = [] → effective_bitrate s.bitrate_str = 100000) ∧
    (0 ≤ strtol s.cpuclock_str → toULong (strtol s.cpuclock_str) = (strtol s.cpuclock_str).toNat) ∧
    (0 ≤ strtol s.bitrate_str → toULong (strtol s.bitrate_str) = (strtol s.bitrate_str).toNat) ∧
    (effective_bitrate s.bitrate_str ≤ effective_clock s.cpuclock_str →
      prescaler (effective_clock s.cpuclock_str) (effective_bitrate s.bitrate_str) =
        effective_clock s.cpuclock_str / effective_bitrate s.bitrate_str - 1) ∧
    (effective_clock s.cpuclock_str < effective_bitrate s.bitrate_str →
      prescaler (effective_clock s.cpuclock_str) (effective_bitrate s.bitrate_str) =
        18446744073709551615) ∧
    prescaler 48000000 100000 = 479 := by
  have hnn : ∀ txt : CStr, 0 ≤ strtol txt → toULong (strtol txt) = (strtol txt).toNat := by
    intro txt h0
    have hb : strtol txt ≤ LONG_MAX := by
      unfold strtol
      simp only []
      split_ifs <;> simp only [LONG_MIN, LONG_MAX] at * <;> omega
    simp only [LONG_MAX] at hb
    exact toULong_of_nonneg _ h0 (by omega)
  refine ⟨?_, ?_, ?_, ?_, ?_, ?_, ?_, hnn _, hnn _, ?_, ?_, ?_⟩
  · refine ⟨(if e.rs232_isopen then [Call.bmp_break] else []) ++ connect_attach_log e ++
        [Call.bmp_enabletrace (if s.opt_mode = .MODE_ASYNC then s.bitrate else 0),
         Call.bmp_runscript "swo-device" e.attach_driver []],
      [Call.bmp_runscript "swo-channels" e.attach_driver
           [channelmask_loop s.channels,
            prescaler (effective_clock s.cpuclock_str) (effective_bitrate s.bitrate_str)],
         Call.bmp_restart, Call.tracestring_clear] ++
        status_calls s.trace_status s.opt_mode e.attach_driver, ?_⟩
    rw [reconfigure_success_eq e s hmode hc ha]
    simp [setup_calls]
  · rw [reconfigure_success_eq e s hmode hc ha]
  · rw [reconfigure_success_eq e s hmode hc ha]
  · unfold effective_clock
    simp only [toULong_eq_zero_iff_strtol]
  · unfold effective_bitrate
    simp only [toULong_eq_zero_iff_strtol]
  · intro h
    unfold effective_clock
    rw [strtol_of_no_digit _ h]
    rfl
  · intro h
    unfold effective_bitrate
    rw [strtol_of_no_digit _ h]
    rfl
  · intro hle
    exact prescaler_of_le _ _ (effective_bitrate_bounds _).1 hle (effective_clock_bounds _).2
  · intro hlt
    exact prescaler_of_lt _ _ hlt
  · decide

set_option maxRecDepth 100000 in
/-- Witness of C10: the first pass of a session in Async mode with the default
texts "48000000" and "100000" hands the pair (2, 479) to the generic script. -/
theorem C10_prescaler_witness :
    s_async_first.opt_mode ≠ .MODE_PASSIVE ∧ pe_attached.bmp_connect = true ∧
      pe_attached.bmp_attach = true ∧
      s_async_first.cpuclock_str = "48000000".toList ∧
      s_async_first.bitrate_str = "100000".toList ∧
      (reconfigure pe_attached s_async_first).cpuclock = 48000000 ∧
      (reconfigure pe_attached s_async_first).bitrate = 100000 ∧
      prescaler (effective_clock s_async_first.cpuclock_str)
        (effective_bitrate s_async_first.bitrate_str) = 479 := by
  have h := C10_prescaler_of_effective_rates pe_attached s_async_first (by decide) rfl rfl
  refine ⟨by decide, rfl, rfl, by decide, by decide, ?_, ?_, ?_⟩
  · rw [h.2.1]; decide
  · rw [h.2.2.1]; decide
  · rw [h.2.2.2.2.2.2.2.2.2.1 (by decide)]; decide

set_option maxRecDepth 100000 in
/-- C10 as stated fails: with the clock text "1000" and the bit-rate text
"100000" the effective values are 1000 and 100000, the generic script receives
2^64 - 1 as its prescaler parameter, and that is not 1000 / 100000 - 1. -/
theorem C10_counterexample :
    effective_clock s_lowclock.cpuclock_str = 1000 ∧
      effective_bitrate s_lowclock.bitrate_str = 100000 ∧
      Call.bmp_runscript "swo-generic" "STM32F1".toList [2, 18446744073709551615] ∈
        (reconfigure pe_attached s_lowclock).log ∧
      ((18446744073709551615 : Nat) : Int) ≠ ((1000 : Nat) : Int) / ((100000 : Nat) : Int) - 1 ∧
      (18446744073709551615 : Nat) ≠ 1000 / 100000 - 1 := by
  refine ⟨by decide, by decide, by decide, by decide, by decide⟩

/-! ## C11: the operations of a reconfiguration pass -/

theorem reconfigure_log (e : ProbeEnv) (s : State) :
    (reconfigure e s).log =
      s.log ++ pass_calls e s ++ status_calls s.trace_status s.opt_mode (pass_driver e s) := by
  by_cases hmode : s.opt_mode = .MODE_PASSIVE
  · have hm : ({ s with passes := s.passes + 1 } : State).opt_mode = .MODE_PASSIVE := hmode
    rw [reconfigure_eq, probe_sequence_passive_eq e _ hm, status_switch_eq, passive_teardown_eq,
      halt_target_eq]
    simp [pass_calls, pass_driver, hmode]
  · have hm : ({ s with passes := s.passes + 1 } : State).opt_mode ≠ .MODE_PASSIVE := hmode
    by_cases hok : e.bmp_connect = true ∧ e.bmp_attach = true
    · rw [reconfigure_success_eq e s hmode hok.1 hok.2]
      simp [pass_calls, pass_driver, hmode, hok.1, hok.2]
    · have hf : e.bmp_connect = false ∨ e.bmp_attach = false := by
        by_cases hc : e.bmp_connect = true
        · right
          cases ha : e.bmp_attach
          · rfl
          · exact absurd ⟨hc, ha⟩ hok
        · left
          simpa using hc
      rw [reconfigure_eq, probe_sequence_failure_eq e _ hm hf, status_switch_eq,
        connect_attach_fst, halt_target_eq]
      simp [pass_calls, pass_driver, hmode, hok]

theorem posts_no_probe_op (ps : List (Int × CStr)) :
    (ps.map (fun p => Call.tracelog_statusmsg .TRACESTATMSG_BMP (some p.2) p.1)).filter
      is_probe_op = [] := by
  rw [List.filter_eq_nil_iff]
  intro c hc
  obtain ⟨p, _, hp⟩ := List.mem_map.mp hc
  rw [← hp]
  simp [is_probe_op]

theorem connect_attach_log_ops (e : ProbeEnv) :
    (connect_attach_log e).filter is_probe_op =
      Call.bmp_connect :: (if e.bmp_connect then [Call.bmp_attach 2] else []) := by
  unfold connect_attach_log
  cases e.bmp_connect <;>
    simp [List.filter_cons, List.filter_append, posts_no_probe_op, is_probe_op]

theorem status_calls_no_probe_op (ts : TraceStat) (mode : Mode) (driver : CStr) :
    (status_calls ts mode driver).filter is_probe_op = [] := by
  unfold status_calls
  cases ts <;> simp only [] <;> (try split_ifs) <;> rfl

theorem setup_calls_ops (s : State) (driver : CStr) :
    (setup_calls s driver).filter is_probe_op = setup_calls s driver := by
  simp [setup_calls, is_probe_op]

theorem posts_no_clear (ps : List (Int × CStr)) :
    (ps.map (fun p => Call.tracelog_statusmsg .TRACESTATMSG_BMP (some p.2) p.1)).count
      Call.tracestring_clear = 0 := by
  rw [List.count_eq_zero]
  intro hc
  obtain ⟨p, _, hp⟩ := List.mem_map.mp hc
  exact Call.noConfusion hp

theorem connect_attach_log_no_clear (e : ProbeEnv) :
    (connect_attach_log e).count Call.tracestring_clear = 0 := by
  unfold connect_attach_log
  cases e.bmp_connect <;>
    simp [List.count_cons, List.count_append, posts_no_clear]

theorem status_calls_no_clear (ts : TraceStat) (mode : Mode) (driver : CStr) :
    (status_calls ts mode driver).count Call.tracestring_clear = 0 := by
  unfold status_calls
  cases ts <;> simp only [] <;> (try split_ifs) <;> rfl

theorem setup_calls_no_clear (s : State) (driver : CStr) :
    (setup_calls s driver).count Call.tracestring_clear = 0 := by
  simp [setup_calls, List.count_cons]

/-- C11 (amended): the probe and transport operations of a reconfiguration
pass are, in this order: the halt if and only if the transport is open; then,
in Passive mode, the clearing of the framing size and, only when the transport
is open, detach, the deassertion of both control lines and the closing of the
transport, and nothing else; in any other mode connect, then attach only if
connect succeeded, and only if attach succeeded too: trace enable, device
script, generic script, channel-mask script and restart; when connect or
attach fails none of the later operations is performed.  In every case the
trace-text buffer is cleared exactly once during the pass. -/
theorem C11_pass_operations (e : ProbeEnv) (s : State) :
    ∃ seg : List Call, (reconfigure e s).log = s.log ++ seg ∧
      seg.filter is_probe_op =
        (if e.rs232_isopen then [Call.bmp_break] else []) ++
          (if s.opt_mode = .MODE_PASSIVE then
            Call.gdbrsp_packetsize 0 ::
              (if e.rs232_isopen then
                [Call.bmp_detach 1, Call.rs232_dtr 0, Call.rs232_rts 0, Call.rs232_close]
              else [])
          else
            Call.bmp_connect ::
              (if e.bmp_connect then
                Call.bmp_attach 2 ::
                  (if e.bmp_attach then
                    [Call.bmp_enabletrace (if s.opt_mode = .MODE_ASYNC then s.bitrate else 0),
                     Call.bmp_runscript "swo-device" e.attach_driver [],
                     Call.bmp_runscript "swo-generic" e.attach_driver
                       [s.opt_mode.ord,
                        prescaler (effective_clock s.cpuclock_str)
                          (effective_bitrate s.bitrate_str)],
                     Call.bmp_runscript "swo-channels" e.attach_driver
                       [channelmask_loop s.channels,
                        prescaler (effective_clock s.cpuclock_str)
                          (effective_bitrate s.bitrate_str)],
                     Call.bmp_restart]
                  else [])
              else [])) ∧
      seg.count Call.tracestring_clear = 1 := by
  refine ⟨pass_calls e s ++ status_calls s.trace_status s.opt_mode (pass_driver e s), ?_, ?_, ?_⟩
  · rw [reconfigure_log, List.append_assoc]
  · rw [List.filter_append, status_calls_no_probe_op, List.append_nil]
    unfold pass_calls
    simp only [List.filter_append]
    by_cases hmode : s.opt_mode = .MODE_PASSIVE
    · cases e.rs232_isopen <;> simp [hmode, is_probe_op]
    · simp only [hmode, if_false]
      rw [List.filter_append, connect_attach_log_ops]
      have hsetup : (setup_calls s e.attach_driver).filter is_probe_op =
          setup_calls s e.attach_driver := setup_calls_ops s e.attach_driver
      cases hopen : e.rs232_isopen <;> cases hc : e.bmp_connect <;> cases ha : e.bmp_attach <;>
        simp [is_probe_op, hsetup] <;> simp [setup_calls]
  · rw [List.count_append, status_calls_no_clear]
    unfold pass_calls
    simp only [List.count_append]
    by_cases hmode : s.opt_mode = .MODE_PASSIVE
    · cases e.rs232_isopen <;> simp [hmode, List.count_cons]
    · simp only [hmode, if_false]
      rw [List.count_append, connect_attach_log_no_clear]
      cases hopen : e.rs232_isopen <;> cases hc : e.bmp_connect <;> cases ha : e.bmp_attach <;>
        simp [setup_calls_no_clear, List.count_cons]

set_option maxRecDepth 100000 in
/-- C11 as stated fails: in the first pass of a session in Passive mode the
transport is not open, and the pass clears the framing size without detaching,
deasserting the control lines or closing the transport. -/
theorem C11_counterexample :
    s_passive_first.opt_mode = .MODE_PASSIVE ∧ pe_unreachable.rs232_isopen = false ∧
      (reconfigure pe_unreachable s_passive_first).log =
        s_passive_first.log ++
          [Call.gdbrsp_packetsize 0, Call.tracestring_clear,
           Call.tracelog_statusmsg .TRACESTATMSG_BMP (some "Listening...".toList) 1] ∧
      Call.bmp_detach 1 ∉ (reconfigure pe_unreachable s_passive_first).log ∧
      Call.rs232_dtr 0 ∉ (reconfigure pe_unreachable s_passive_first).log ∧
      Call.rs232_rts 0 ∉ (reconfigure pe_unreachable s_passive_first).log ∧
      Call.rs232_close ∉ (reconfigure pe_unreachable s_passive_first).log := by
  refine ⟨by decide, rfl, by decide, by decide, by decide, by decide, by decide⟩

/-! ## C13: a click on a check box in Passive mode -/

theorem channel_checkbox_passive (g : GuiInput) (s : State) (chan : Nat)
    (hmode : s.opt_mode = .MODE_PASSIVE) : channel_checkbox g s chan = s := by
  unfold channel_checkbox
  simp only []
  rw [if_neg]
  rw [hmode]
  intro h
  exact absurd h.2 (by decide)

theorem channel_popup_toggle_view (g : GuiInput) (s : State) (chan : Nat) :
    same_toggle_view s (channel_popup g s chan) := by
  unfold channel_popup
  simp only []
  split_ifs
  all_goals
    first
    | exact ⟨rfl, rfl, rfl, rfl, fun _ => rfl⟩
    | exact ⟨rfl, rfl, rfl, rfl, fun _ => channel_setcolor_enabled _ _ _ _⟩
    | exact ⟨rfl, rfl, rfl, rfl, fun _ => channel_setname_enabled _ _ _ _⟩

theorem channel_grid_passive (g : GuiInput) (s : State) (hmode : s.opt_mode = .MODE_PASSIVE) :
    same_toggle_view s (channel_grid g s) := by
  unfold channel_grid
  generalize List.range 32 = l
  induction l generalizing s with
  | nil => exact ⟨rfl, rfl, rfl, rfl, fun _ => rfl⟩
  | cons c l ih =>
    rw [List.foldl_cons]
    have hcell : same_toggle_view s (channel_cell g s c) := by
      unfold channel_cell
      rw [channel_checkbox_passive g s c hmode]
      exact channel_popup_toggle_view g s c
    have hm : (channel_cell g s c).opt_mode = .MODE_PASSIVE := hcell.1.trans hmode
    obtain ⟨a1, a2, a3, a4, a5⟩ := hcell
    obtain ⟨b1, b2, b3, b4, b5⟩ := ih _ hm
    exact ⟨b1.trans a1, b2.trans a2, b3.trans a3, b4.trans a4, fun i => (b5 i).trans (a5 i)⟩

/-- C13: in every state in which the mode is Passive, a click on the check box
of a channel changes nothing: the handler of the check box returns the state
it was given, so the channel's enabled flag, the channel mask and the pending
counter keep their values and no call is made; over the whole channel grid of
a frame, whatever is clicked, every enabled flag, the mask, the counter and the
trace of calls (hence no mask-push script) are as before.  In any state, a
check box handler that changes an enabled flag runs in a mode other than
Passive. -/
theorem C13_click_in_passive_changes_nothing (g : GuiInput) (s t : State) (chan : Nat)
    (hmode : s.opt_mode = .MODE_PASSIVE) :
    channel_checkbox g s chan = s ∧
    (∀ i, channel_getenabled (channel_grid g s).channels i = channel_getenabled s.channels i) ∧
    (channel_grid g s).channelmask = s.channelmask ∧
    State.reinitialize (channel_grid g s) = s.reinitialize ∧
    (channel_grid g s).log = s.log ∧
    ((∃ i, channel_getenabled (channel_checkbox g t chan).channels i ≠
        channel_getenabled t.channels i) → t.opt_mode ≠ .MODE_PASSIVE) := by
  obtain ⟨_, h2, h3, h4, h5⟩ := channel_grid_passive g s hmode
  refine ⟨channel_checkbox_passive g s chan hmode, h5, h3, h4, h2, ?_⟩
  rintro ⟨i, hi⟩ hp
  rw [channel_checkbox_passive g t chan hp] at hi
  exact hi rfl

set_option maxRecDepth 100000 in
/-- Witness of C13: in the first frame after the start-up pass of a session in
Passive mode the operator clicks the check boxes of channels 0 and 1; channel 0
stays enabled, channel 1 stays disabled, the mask stays 0 and no call is
made. -/
theorem C13_click_in_passive_witness :
    (reconfigure pe_unreachable s_passive_first).opt_mode = .MODE_PASSIVE ∧
      (g_click01.chan 1).checkbox = true ∧
      channel_checkbox g_click01 (reconfigure pe_unreachable s_passive_first) 1 =
        reconfigure pe_unreachable s_passive_first ∧
      (channel_grid g_click01 (reconfigure pe_unreachable s_passive_first)).log =
        (reconfigure pe_unreachable s_passive_first).log ∧
      channel_getenabled
        (channel_grid g_click01 (reconfigure pe_unreachable s_passive_first)).channels 0 = true ∧
      channel_getenabled
        (channel_grid g_click01 (reconfigure pe_unreachable s_passive_first)).channels 1 = false := by
  have h := C13_click_in_passive_changes_nothing g_click01
    (reconfigure pe_unreachable s_passive_first) s_start 1 (by decide)
  refine ⟨by decide, by decide, h.1, h.2.2.2.2.1, ?_, ?_⟩
  · rw [h.2.1 0]; decide
  · rw [h.2.1 1]; decide

/-! ## C12: stream names overrule channel names -/

theorem channel_setname_color (reg : Registry) (index : Nat) (name : Option CStr) (i : Nat) :
    channel_getcolor (channel_setname reg index name) i = channel_getcolor reg i := by
  unfold channel_getcolor channel_setname
  split_ifs <;> rfl

theorem stream_names_color (streams : List (Option CTF_STREAM)) (fuel seqnr : Nat)
    (reg : Registry) (i : Nat) :
    channel_getcolor (stream_names streams fuel seqnr reg) i = channel_getcolor reg i := by
  induction fuel generalizing seqnr reg with
  | zero => rfl
  | succ k ih =>
    unfold stream_names
    split
    · rfl
    · rw [ih]
      split_ifs
      · exact channel_setname_color _ _ _ _
      · rfl

theorem stream_by_seqnr_length (streams : List (Option CTF_STREAM)) :
    stream_by_seqnr streams streams.length = none := by
  unfold stream_by_seqnr
  rw [List.get?_eq_none.mpr (le_refl _)]
  rfl

theorem first_absent_le_length (streams : List (Option CTF_STREAM)) (k : Nat)
    (hmin : ∀ n, n < k → stream_by_seqnr streams n ≠ none) : k ≤ streams.length := by
  by_contra h
  exact hmin streams.length (by omega) (stream_by_seqnr_length streams)

theorem stream_names_fuel_succ (streams : List (Option CTF_STREAM)) (k : Nat)
    (hk : stream_by_seqnr streams k = none) (fuel seqnr : Nat) (reg : Registry)
    (hle : seqnr ≤ k) (hfuel : k - seqnr < fuel) :
    stream_names streams (fuel + 1) seqnr reg = stream_names streams fuel seqnr reg := by
  induction fuel generalizing seqnr reg with
  | zero => omega
  | succ f ih =>
    rw [stream_names, stream_names]
    cases hs : stream_by_seqnr streams seqnr with
    | none => rfl
    | some st =>
      simp only []
      have hne : seqnr ≠ k := by
        intro h
        rw [h, hk] at hs
        exact Option.noConfusion hs
      exact ih _ _ (by omega) (by omega)

theorem stream_names_fuel (streams : List (Option CTF_STREAM)) (k : Nat)
    (hk : stream_by_seqnr streams k = none) (fuel extra seqnr : Nat) (reg : Registry)
    (hle : seqnr ≤ k) (hfuel : k - seqnr < fuel) :
    stream_names streams (fuel + extra) seqnr reg = stream_names streams fuel seqnr reg := by
  induction extra with
  | zero => rfl
  | succ x ih =>
    rw [← Nat.add_assoc, stream_names_fuel_succ streams k hk _ _ _ hle (by omega), ih]

theorem channel_setname_name (reg : Registry) (index : Nat) (name : Option CStr) (i : Nat) :
    ((channel_setname reg index name) i).name =
      if i = index ∧ index < NUM_CHANNELS then name else (reg i).name := by
  unfold channel_setname
  split_ifs <;> rfl

theorem named_stream_of_some (streams : List (Option CTF_STREAM)) (seqnr : Nat)
    (st : CTF_STREAM) (hs : stream_by_seqnr streams seqnr = some st) :
    named_stream streams seqnr =
      if st.name ≠ none ∧ (st.name.getD []).length > 0 then st.name else none := by
  unfold named_stream
  rw [hs]

theorem stream_names_name (streams : List (Option CTF_STREAM)) (k : Nat)
    (hk : stream_by_seqnr streams k = none)
    (hmin : ∀ n, n < k → stream_by_seqnr streams n ≠ none)
    (fuel seqnr : Nat) (reg : Registry) (hle : seqnr ≤ k) (hfuel : k - seqnr < fuel) (n : Nat) :
    ((stream_names streams fuel seqnr reg) n).name =
      if seqnr ≤ n ∧ n < k ∧ n < NUM_CHANNELS ∧ (named_stream streams n).isSome = true then
        named_stream streams n
      else (reg n).name := by
  induction fuel generalizing seqnr reg with
  | zero => omega
  | succ f ih =>
    rw [stream_names]
    cases hs : stream_by_seqnr streams seqnr with
    | none =>
      have hsk : seqnr = k := by
        by_contra hne
        exact hmin seqnr (by omega) hs
      simp only []
      rw [if_neg]
      intro h
      omega
    | some st =>
      have hne : seqnr ≠ k := by
        intro h
        rw [h, hk] at hs
        exact Option.noConfusion hs
      simp only []
      rw [ih _ _ (by omega) (by omega)]
      by_cases hn : n = seqnr
      · subst hn
        rw [if_neg (by omega), named_stream_of_some streams n st hs]
        by_cases hc : st.name ≠ none ∧ (st.name.getD []).length > 0
        · rw [if_pos hc, if_pos hc, channel_setname_name]
          have hsome : st.name.isSome = true := by
            cases hnm : st.name with
            | none => exact absurd hnm hc.1
            | some v => rfl
          by_cases h32 : n < NUM_CHANNELS
          · rw [if_pos ⟨rfl, h32⟩, if_pos ⟨le_refl _, by omega, h32, hsome⟩]
          · rw [if_neg (fun h => h32 h.2), if_neg (fun h => h32 h.2.2.1)]
        · rw [if_neg hc, if_neg hc, if_neg]
          intro h
          exact Bool.noConfusion h.2.2.2
      · have hreg : ((if st.name ≠ none ∧ (st.name.getD []).length > 0 then
            channel_setname reg seqnr st.name else reg) n).name = (reg n).name := by
          split_ifs
          · rw [channel_setname_name, if_neg (fun h => hn h.1)]
          · rfl
        rw [hreg]
        by_cases hcond : seqnr ≤ n ∧ n < k ∧ n < NUM_CHANNELS ∧
            (named_stream streams n).isSome = true
        · rw [if_pos hcond, if_pos ⟨by omega, hcond.2⟩]
        · rw [if_neg hcond, if_neg]
          intro h
          exact hcond ⟨by omega, h.2⟩

theorem reload_body_channels (e : SchemaEnv) (s : State) :
    (reload_body e s).channels =
      if structured_ok e s then stream_names e.streams (e.streams.length + 1) 0 s.channels
      else s.channels := by
  show (reload_build e (reload_teardown s)).channels = _
  rw [reload_build_channels, reload_teardown_eq]
  have hp : (parse_attempted e
      { s with cur_match_line := -1, ctf_statusset := false, log := s.log ++ teardown_calls } ∧
      e.ctf_parse_init = true ∧ e.ctf_parse_run = true) ↔ structured_ok e s := by
    unfold parse_attempted structured_ok
    tauto
  simp only [hp]

/-- C12: for every schema that parses successfully in Structured format, with
k the smallest sequence number for which the schema defines no stream: the
loop over the streams ends at k (any bound on its iterations above k gives the
same registry); for every channel n below k the name after the format reload
is the name of stream n when that name is present and not empty, and the name
before the reload otherwise; for every n from k on the name is unchanged, also
when the schema defines streams with sequence numbers above k; and the enabled
flag and the colour of every channel are unchanged. -/
theorem C12_stream_names_overrule (e : SchemaEnv) (s : State) (k : Nat)
    (hok : structured_ok e s) (hk : stream_by_seqnr e.streams k = none)
    (hmin : ∀ n, n < k → stream_by_seqnr e.streams n ≠ none) :
    (∀ extra, stream_names e.streams (k + 1 + extra) 0 s.channels = (reload_body e s).channels) ∧
    (∀ n, n < k → n < NUM_CHANNELS →
      ∃ stream, stream_by_seqnr e.streams n = some stream ∧
        ((reload_body e s).channels n).name =
          if stream.name ≠ none ∧ (stream.name.getD []).length > 0 then stream.name
          else (s.channels n).name) ∧
    (∀ n, k ≤ n → ((reload_body e s).channels n).name = (s.channels n).name) ∧
    (∀ n, channel_getenabled (reload_body e s).channels n = channel_getenabled s.channels n ∧
      channel_getcolor (reload_body e s).channels n = channel_getcolor s.channels n) := by
  have hlen : k ≤ e.streams.length := first_absent_le_length e.streams k hmin
  have hch : (reload_body e s).channels =
      stream_names e.streams (e.streams.length + 1) 0 s.channels := by
    rw [reload_body_channels, if_pos hok]
  have hname := stream_names_name e.streams k hk hmin (e.streams.length + 1) 0 s.channels
    (Nat.zero_le _) (by omega)
  refine ⟨?_, ?_, ?_, ?_⟩
  · intro extra
    rw [hch, stream_names_fuel e.streams k hk (k + 1) extra 0 s.channels (Nat.zero_le _) (by omega)]
    have h2 : e.streams.length + 1 = k + 1 + (e.streams.length - k) := by omega
    rw [h2, stream_names_fuel e.streams k hk (k + 1) _ 0 s.channels (Nat.zero_le _) (by omega)]
  · intro n hn h32
    cases hs : stream_by_seqnr e.streams n with
    | none => exact absurd hs (hmin n hn)
    | some st =>
      refine ⟨st, rfl, ?_⟩
      rw [hch, hname n, named_stream_of_some e.streams n st hs]
      by_cases hc : st.name ≠ none ∧ (st.name.getD []).length > 0
      · have hsome : st.name.isSome = true := by
          cases hnm : st.name with
          | none => exact absurd hnm hc.1
          | some v => rfl
        rw [if_pos hc, if_pos hc, if_pos ⟨Nat.zero_le _, hn, h32, hsome⟩]
      · rw [if_neg hc, if_neg hc, if_neg]
        intro h
        exact Bool.noConfusion h.2.2.2
  · intro n hn
    rw [hch, hname n, if_neg]
    intro h
    omega
  · intro n
    rw [hch]
    exact ⟨stream_names_enabled _ _ _ _ _, stream_names_color _ _ _ _ _⟩

set_option maxRecDepth 100000 in
/-- Witness of C12: the schema defines the streams 0 ("alpha"), 1 (empty name),
2 (no name) and 4 ("late"), so k is 3; after the reload channel 0 is named
"alpha" and the channels 1, 2 and 4 have no name, as before. -/
theorem C12_stream_names_witness :
    structured_ok se_streams s_structured ∧ stream_by_seqnr se_streams.streams 3 = none ∧
      (∀ n, n < 3 → stream_by_seqnr se_streams.streams n ≠ none) ∧
      ((reload_body se_streams s_structured).channels 0).name = some "alpha".toList ∧
      ((reload_body se_streams s_structured).channels 1).name = none ∧
      ((reload_body se_streams s_structured).channels 2).name = none ∧
      ((reload_body se_streams s_structured).channels 4).name = none := by
  have h := C12_stream_names_overrule se_streams s_structured 3 (by decide) (by decide)
    (by decide)
  refine ⟨by decide, by decide, by decide, ?_, ?_, ?_, ?_⟩
  · obtain ⟨st, hst, hname⟩ := h.2.1 0 (by decide) (by decide)
    rw [hname]
    have : st = ⟨some "alpha".toList⟩ := by
      have h0 : stream_by_seqnr se_streams.streams 0 = some ⟨some "alpha".toList⟩ := by decide
      rw [h0] at hst
      exact (Option.some.inj hst).symm
    rw [this]
    decide
  · obtain ⟨st, hst, hname⟩ := h.2.1 1 (by decide) (by decide)
    rw [hname]
    have : st = ⟨some []⟩ := by
      have h0 : stream_by_seqnr se_streams.streams 1 = some ⟨some []⟩ := by decide
      rw [h0] at hst
      exact (Option.some.inj hst).symm
    rw [this]
    decide
  · obtain ⟨st, hst, hname⟩ := h.2.1 2 (by decide) (by decide)
    rw [hname]
    have : st = ⟨none⟩ := by
      have h0 : stream_by_seqnr se_streams.streams 2 = some ⟨none⟩ := by decide
      rw [h0] at hst
      exact (Option.some.inj hst).symm
    rw [this]
    decide
  · rw [h.2.2.1 4 (by decide)]
    decide

end BMTrace
